import Mathlib

/-!
# The sampling coordinator (`sampling_core.cpp`)

A shallow embedding of `sampling::core::SamplingCore` and theorems about it.

* `double` is a type parameter `α` with the arithmetic the code uses; the
  theorems about `RMSError` instantiate it with `ℝ`, concrete evaluations use `ℤ`
  (with values that a `double` holds exactly).
* `Eigen::VectorXd` is a `List α`; `Eigen::MatrixXd` is `MatrixXd α`, a list of
  rows together with the column count.
* An operation whose C++ precondition is violated (an unset `boost::optional`
  unwrapped, an Eigen index out of range, a null `unique_ptr` dereferenced, an `int`
  division by zero or overflow) yields `Outcome.undefined`; it is neither a returned
  value nor an error result of the service.
* The classes whose code is outside `sampling_core.cpp` (the Gaussian process
  mixture model, the Voronoi partitioner, the informative-sampling policy) are a
  record of functions `Externals`.
-/

namespace sampling
namespace core

/-! ## Outcomes -/

/-- The C++ preconditions the embedded code can violate. -/
inductive UB where
  /-- `boost::optional::get()` on an optional that holds no value. -/
  | optional_get_unset
  /-- An Eigen coefficient access outside the matrix. -/
  | index_out_of_range
  /-- An Eigen assignment between objects of incompatible static shape. -/
  | shape_mismatch
  /-- `operator->` on a `unique_ptr` that holds `nullptr`. -/
  | null_dereference
  /-- `%` with a zero right operand (or `INT_MIN % -1`). -/
  | int_division
  /-- Signed `int` overflow. -/
  | int_overflow
  deriving DecidableEq, Repr

/-- Result of running a piece of the C++ code: it completes with a value, or the
execution has left defined behaviour. -/
inductive Outcome (σ : Type) where
  | done (value : σ)
  | undefined (why : UB)
  deriving DecidableEq, Repr

namespace Outcome

/-- Sequencing: the rest of the code runs only when the first part completed. -/
def bind {σ τ : Type} : Outcome σ → (σ → Outcome τ) → Outcome τ
  | done v, f => f v
  | undefined w, _ => undefined w

instance : Monad Outcome where
  pure := Outcome.done
  bind := Outcome.bind

/-- Applies a function to the value of a completed run. -/
def image {σ τ : Type} (f : σ → τ) : Outcome σ → Outcome τ
  | done v => done (f v)
  | undefined w => undefined w

end Outcome

/-! ## Eigen vectors and matrices -/

/-- Model of `Eigen::VectorXd`: the coefficients in index order. -/
abbrev VectorXd (α : Type) := List α

/-- Model of `Eigen::MatrixXd`: `data` lists the rows, each of length `cols`. -/
structure MatrixXd (α : Type) where
  cols : Nat
  data : List (List α)
  deriving DecidableEq, Repr

namespace MatrixXd

variable {α : Type}

/-- `m.rows()`. -/
def rows (m : MatrixXd α) : Nat := m.data.length

/-- A default-constructed matrix is 0 × 0. -/
def empty : MatrixXd α := ⟨0, []⟩

/-- `m(i, j)` read. -/
def coeff (m : MatrixXd α) (i j : Nat) : Outcome α :=
  match m.data.get? i with
  | some row =>
    match row.get? j with
    | some x => if j < m.cols then .done x else .undefined .index_out_of_range
    | none => .undefined .index_out_of_range
  | none => .undefined .index_out_of_range

/-- `m(i, j) = x`. -/
def setCoeff (m : MatrixXd α) (i j : Nat) (x : α) : Outcome (MatrixXd α) :=
  match m.data.get? i with
  | some row =>
    if j < m.cols ∧ j < row.length then
      .done { m with data := m.data.set i (row.set j x) }
    else .undefined .index_out_of_range
  | none => .undefined .index_out_of_range

/-- `m.conservativeResize(m.rows() + 1, m.cols())`: the old coefficients keep their
place, the coefficients of the new last row are whatever the fresh storage holds
(`fresh`). -/
def conservativeResizeAddRow (m : MatrixXd α) (fresh : α) : MatrixXd α :=
  { m with data := m.data ++ [List.replicate m.cols fresh] }

/-- `m.col(0)`: defined only when the matrix has a column. -/
def col0 (m : MatrixXd α) : Outcome (VectorXd α) :=
  if 0 < m.cols then .done (m.data.filterMap List.head?)
  else .undefined .index_out_of_range

/-- `VectorXd v = m`: Eigen accepts the assignment to a column vector only from a
matrix with exactly one column. -/
def toVectorXd (m : MatrixXd α) : Outcome (VectorXd α) :=
  if m.cols = 1 then .done (m.data.filterMap List.head?)
  else .undefined .shape_mismatch

/-- A `VectorXd` passed where a matrix is expected: an n × 1 matrix. -/
def ofVectorXd (v : VectorXd α) : MatrixXd α :=
  ⟨1, v.map (fun x => [x])⟩

end MatrixXd

/-! ## Messages -/

set_option linter.dupNamespace false in
/-- Modelled from the spec: the message `sampling_msgs::measurement`, whose
definition is generated code outside the sources at hand. The fields are those of
`MeasurementEvent{location, value, validityFlag, sourceAgentId}`; `valid`,
`robot_id` and `measurement` are the names the code reads, the location is held as
the two coordinates `location_x`, `location_y`, named as in the position
messages. -/
structure measurement (α : Type) where
  valid : Bool
  robot_id : String
  location_x : α
  location_y : α
  measurement : α
  deriving DecidableEq, Repr

/-- Position message received by `JackalGPSCallback` and `PelicanGPSCallback`: the
two fields the callbacks read. -/
structure NavSatFix (α : Type) where
  location_x : α
  location_y : α
  deriving DecidableEq, Repr

/-- Request of the service `sampling_msgs::SamplingGoal`. -/
structure Request where
  robot_id : String
  deriving DecidableEq, Repr

/-- Response of the service `sampling_msgs::SamplingGoal`. -/
structure Response (α : Type) where
  latitude : α
  longitude : α
  deriving DecidableEq, Repr

/-- Modelled from the spec: `utils::MsgToMatrix`, whose body is in
`utils_impl.h`, outside the sources at hand. It fills a 1 × 2 location matrix with
the location of the measurement event and a 1 × 1 feature matrix with its value. -/
def MsgToMatrix {α : Type} (msg : measurement α) : MatrixXd α × MatrixXd α :=
  (⟨2, [[msg.location_x, msg.location_y]]⟩, ⟨1, [[msg.measurement]]⟩)

/-! ## Collaborating classes -/

/-- `SAMPLINGMODE` of the informative-sampling policy. -/
inductive SAMPLINGMODE where
  | VARIANCE
  | UCB
  deriving DecidableEq, Repr

/-- The classes used by `SamplingCore` whose code is outside `sampling_core.cpp`,
as the functions the coordinator calls: `GP` is
`gpmm::GaussianProcessMixtureModel`, `V` is `voronoi::Voronoi`, `IS` is
`informative_sampling::InformativeSampling`. Following the spec, prediction,
partitioning and selection do not change the object they are called on. -/
structure Externals (α GP V IS : Type) where
  /-- Constructor `GaussianProcessMixtureModel(num_gaussian, hyperparams,
  max_iteration, eps)`. -/
  newModel : Int → List (List α) → Int → α → GP
  /-- `Train(first, second)`: the model after training. -/
  Train : GP → MatrixXd α → MatrixXd α → GP
  /-- `Predict(location, mean, var)`: what it leaves in `mean` and `var`. -/
  Predict : GP → MatrixXd α → VectorXd α × VectorXd α
  /-- Constructor `Voronoi(location)`. -/
  newVoronoi : MatrixXd α → V
  /-- `GetSingleVoronoiCellIndex(agent_locations, agent_id)`. -/
  GetSingleVoronoiCellIndex : V → MatrixXd α → Int → List Int
  /-- Constructor `InformativeSampling(location, selection_mode, variance_coef)`. -/
  newInformativeSampling : MatrixXd α → SAMPLINGMODE → α → IS
  /-- `SelectInformativeLocation(mean, var, cell_index)`. -/
  SelectInformativeLocation : IS → VectorXd α → VectorXd α → List Int → α × α
  /-- `std::sqrt`. -/
  sqrt : α → α
  /-- Content of storage that Eigen allocates and does not initialise. -/
  uninitialized : α

/-! ## The coordinator object -/

/-- One entry of `visualization_params_` (`visualization::MAP_PARAM`). -/
structure MAP_PARAM (α : Type) where
  map_frame : String
  map_id : Int
  x_scale : α
  y_scale : α
  x_offset : α
  y_offset : α
  lower_bound : α
  upper_bound : α
  deriving DecidableEq, Repr

/-- The members of `SamplingCore` that `ParseFromRosParam` writes. -/
structure Parameters (α : Type) where
  location_ : MatrixXd α
  ground_truth_location_ : MatrixXd α
  ground_truth_temperature_ : MatrixXd α
  init_sample_location_ : MatrixXd α
  init_sample_temperature_ : MatrixXd α
  collected_temperatures_ : VectorXd α
  collected_locations_ : MatrixXd α
  model_update_rate_ : Int
  num_gaussian_ : Int
  gp_hyperparams_ : List (List α)
  gt_num_gaussian_ : Int
  gt_gp_hyperparams_ : List (List α)
  max_iteration_ : Int
  eps_ : α
  map_scale_ : α
  selection_mode_ : SAMPLINGMODE
  Jackal_id_ : String
  Pelican_id_ : String
  variance_coef_ : α
  visualization_params_ : List (MAP_PARAM α)
  deriving DecidableEq, Repr

/-- The state of a `SamplingCore` object once `Init` has run. The two
`unique_ptr` members that `Init` always fills (`model_`,
`informative_sampling_node_`) are held by value, `gt_model_` may be `nullptr`
(`none`). Of the visualization objects only their existence is kept:
`visualization_node_` lists the frames that have a node, the two booleans say
whether the robot nodes are non-null. ROS handles are left out. -/
structure SamplingCore (α GP V IS : Type) extends Parameters α where
  gt_mean_ : VectorXd α
  gt_var_ : VectorXd α
  Jackal_latitude_ : Option α
  Jackal_longitude_ : Option α
  Pelican_latitude_ : Option α
  Pelican_longitude_ : Option α
  model_ : GP
  gt_model_ : Option GP
  mean_prediction_ : VectorXd α
  var_prediction_ : VectorXd α
  visualization_node_ : List String
  Jackal_visualization_node_ : Bool
  Pelican_visualization_node_ : Bool
  informative_sampling_node_ : IS
  update_flag_ : Bool
  sample_size_ : Int
  voronoi_node_ : V
  agent_id_ : List (String × Int)
  deriving DecidableEq

/-! ## Primitive operations -/

/-- Largest value of a C++ `int`. -/
def INT_MAX : Int := 2147483647

/-- Smallest value of a C++ `int`. -/
def INT_MIN : Int := -2147483648

/-- `x++` on an `int`. -/
def intIncrement (x : Int) : Outcome Int :=
  if x < INT_MAX then .done (x + 1) else .undefined .int_overflow

/-- `a % b` on `int`s: the remainder of the division truncated towards zero. -/
def intRemainder (a b : Int) : Outcome Int :=
  if b = 0 ∨ (a = INT_MIN ∧ b = -1) then .undefined .int_division
  else .done (Int.tmod a b)

/-- `opt.get()` of a `boost::optional`. -/
def optionalGet {α : Type} : Option α → Outcome α
  | some x => .done x
  | none => .undefined .optional_get_unset

/-- `map[key]` of a `std::unordered_map<std::string, int>` read: the mapped value
and the map afterwards; a key that is absent is inserted with the value 0. -/
def mapIndex (m : List (String × Int)) (key : String) : Int × List (String × Int) :=
  match m.lookup key with
  | some v => (v, m)
  | none => (0, m ++ [(key, 0)])

/-- `map[key] = v`. -/
def mapAssign (m : List (String × Int)) (key : String) (v : Int) : List (String × Int) :=
  if (m.lookup key).isSome then
    m.map (fun kv => if kv.1 == key then (kv.1, v) else kv)
  else m ++ [(key, v)]

/-- The keys of the agent table. -/
def mapKeys (m : List (String × Int)) : List String := m.map Prod.fst

section Scalar

variable {α GP V IS : Type}
variable [Zero α] [Add α] [Sub α] [Mul α] [Div α] [NatCast α]

/-! ## `SamplingCore::RMSError` -/

/-- `SamplingCore::RMSError(val1, val2)`. -/
def RMSError (sqrt : α → α) (val1 val2 : VectorXd α) : α :=
  if val1.length ≠ val2.length then
    (0 : α)
  else
    let rms := (List.range val1.length).foldl
      (fun rms i => rms + (val1.getD i 0 - val2.getD i 0) * (val1.getD i 0 - val2.getD i 0))
      (0 : α)
    sqrt (rms / (val1.length : α))

/-! ## `SamplingCore::AssignInterestPoint` -/

/-- The 2 × 2 matrix `agent_locations` once its four coefficients are assigned. -/
def agentLocations (jackal_lat jackal_lon pelican_lat pelican_lon : α) : MatrixXd α :=
  ⟨2, [[jackal_lat, jackal_lon], [pelican_lat, pelican_lon]]⟩

/-- `SamplingCore::AssignInterestPoint(req, res)`: the object afterwards, the
returned `bool` and the response `res`. -/
def AssignInterestPoint (ext : Externals α GP V IS) (s : SamplingCore α GP V IS)
    (req : Request) : Outcome (SamplingCore α GP V IS × Bool × Response α) := do
  let (agent_id, table) := mapIndex s.agent_id_ req.robot_id
  let s := { s with agent_id_ := table }
  let a00 ← optionalGet s.Jackal_latitude_
  let a01 ← optionalGet s.Jackal_longitude_
  let a10 ← optionalGet s.Pelican_latitude_
  let a11 ← optionalGet s.Pelican_longitude_
  let agent_locations := agentLocations a00 a01 a10 a11
  let cell_index := ext.GetSingleVoronoiCellIndex s.voronoi_node_ agent_locations agent_id
  let next_location := ext.SelectInformativeLocation s.informative_sampling_node_
    s.mean_prediction_ s.var_prediction_ cell_index
  pure (s, true, { latitude := next_location.1, longitude := next_location.2 })

/-! ## `SamplingCore::CollectSampleCallback` -/

/-- `v(i) = x` on a `VectorXd`. -/
def vectorSet (v : VectorXd α) (i : Nat) (x : α) : Outcome (VectorXd α) :=
  if i < v.length then .done (v.set i x) else .undefined .index_out_of_range

/-- `SamplingCore::CollectSampleCallback(msg)`. -/
def CollectSampleCallback (ext : Externals α GP V IS) (s : SamplingCore α GP V IS)
    (msg : measurement α) : Outcome (SamplingCore α GP V IS) :=
  if msg.valid then do
    let sample_size ← intIncrement s.sample_size_
    let r ← intRemainder sample_size s.model_update_rate_
    let update_flag := if r = 0 then true else s.update_flag_
    let new_location := (MsgToMatrix msg).1
    let x ← new_location.coeff 0 0
    let new_location ← new_location.setCoeff 0 0 (x * s.map_scale_)
    let y ← new_location.coeff 0 1
    let new_location ← new_location.setCoeff 0 1 (y * s.map_scale_)
    let temperatures := s.collected_temperatures_ ++ [ext.uninitialized]
    let temperatures ← vectorSet temperatures (temperatures.length - 1) msg.measurement
    let locations := s.collected_locations_.conservativeResizeAddRow ext.uninitialized
    let x ← new_location.coeff 0 0
    let locations ← locations.setCoeff (locations.rows - 1) 0 x
    let y ← new_location.coeff 0 1
    let locations ← locations.setCoeff (locations.rows - 1) 1 y
    pure { s with
      sample_size_ := sample_size
      update_flag_ := update_flag
      collected_temperatures_ := temperatures
      collected_locations_ := locations }
  else
    pure s

/-! ## Position callbacks -/

/-- `SamplingCore::JackalGPSCallback(msg)`. -/
def JackalGPSCallback (s : SamplingCore α GP V IS) (msg : NavSatFix α) :
    Outcome (SamplingCore α GP V IS) :=
  let s := { s with
    Jackal_latitude_ := some (msg.location_x * s.map_scale_)
    Jackal_longitude_ := some (msg.location_y * s.map_scale_) }
  if s.Jackal_visualization_node_ then .done s else .undefined .null_dereference

/-- `SamplingCore::PelicanGPSCallback(msg)`. -/
def PelicanGPSCallback (s : SamplingCore α GP V IS) (msg : NavSatFix α) :
    Outcome (SamplingCore α GP V IS) :=
  let s := { s with
    Pelican_latitude_ := some (msg.location_x * s.map_scale_)
    Pelican_longitude_ := some (msg.location_y * s.map_scale_) }
  if s.Pelican_visualization_node_ then .done s else .undefined .null_dereference

/-! ## `SamplingCore::Update` -/

/-- `SamplingCore::UpdateModel()`. -/
def UpdateModel (ext : Externals α GP V IS) (s : SamplingCore α GP V IS) :
    SamplingCore α GP V IS :=
  let model := ext.Train s.model_ (MatrixXd.ofVectorXd s.collected_temperatures_)
    s.collected_locations_
  let prediction := ext.Predict model s.location_
  { s with model_ := model, mean_prediction_ := prediction.1, var_prediction_ := prediction.2 }

/-- `SamplingCore::UpdateVisualization()`: `visualization_node_["mean"]` and
`visualization_node_["variance"]` are dereferenced, so both nodes have to exist;
what the nodes draw is not part of the state. -/
def UpdateVisualization (s : SamplingCore α GP V IS) : Outcome (SamplingCore α GP V IS) :=
  if s.visualization_node_.contains "mean" then
    if s.visualization_node_.contains "variance" then .done s
    else .undefined .null_dereference
  else .undefined .null_dereference

/-- `SamplingCore::Update()`: the object afterwards and the RMS value the call
writes to the log (`none` when no retraining took place). -/
def Update (ext : Externals α GP V IS) (s : SamplingCore α GP V IS) :
    Outcome (SamplingCore α GP V IS × Option α) :=
  if s.update_flag_ then do
    let s := { s with update_flag_ := false }
    let s := UpdateModel ext s
    let rms := RMSError ext.sqrt s.gt_mean_ s.mean_prediction_
    let s ← UpdateVisualization s
    pure (s, some rms)
  else do
    let s ← UpdateVisualization s
    pure (s, none)

/-! ## Parameter loading and `SamplingCore::Init` -/

/-- The entry `data_path[0]` of the parameter server: each matrix is present or
not (`utils::GetParamData` returns `false`). -/
structure DataPath (α : Type) where
  location_data : Option (MatrixXd α)
  ground_truth_temperature_data : Option (MatrixXd α)
  ground_truth_location_data : Option (MatrixXd α)
  initial_location_data : Option (MatrixXd α)
  initial_temperature_data : Option (MatrixXd α)

/-- An entry of `learning_parameters`. -/
structure LearningParam where
  model_update_rate : Option Int

/-- An entry of `model_parameters`; `param` holds `param0`, `param1`, ... in
order, each present or not. -/
structure ModelParam (α : Type) where
  gt : Option Bool
  num_gaussian : Option Int
  param : List (Option (List α))
  max_iteration : Option Int
  eps : Option α
  map_scale : Option α

/-- An entry of `sampling_parameters`. -/
structure SamplingParam (α : Type) where
  selection_model : Option Int
  Jackal_id : Option String
  Pelican_id : Option String
  variance_coef_ : Option α

/-- An entry of `visualization_parameters`. -/
structure MapParamNode (α : Type) where
  map_frame : Option String
  map_id : Option Int
  x_scale : Option α
  y_scale : Option α
  x_offset : Option α
  y_offset : Option α
  lower_bound : Option α
  upper_bound : Option α

/-- What the private node handle `rh_` serves; a list that `getParam` does not
find is `none`. -/
structure RosParam (α : Type) where
  data_path : Option (List (DataPath α))
  learning_parameters : Option (List LearningParam)
  model_parameters : Option (List (ModelParam α))
  sampling_parameters : Option (List (SamplingParam α))
  visualization_parameters : List (MapParamNode α)

/-- The scalar members that the constructor of `SamplingCore` leaves without a
value and `ParseFromRosParam` may or may not assign. -/
structure Indeterminate (α : Type) where
  num_gaussian_ : Int
  gt_num_gaussian_ : Int
  max_iteration_ : Int
  eps_ : α
  map_scale_ : α

/-- `SamplingCore::LoadMapParam(YamlNode, param)`; `none` is the result `false`. -/
def LoadMapParam (node : MapParamNode α) : Option (MAP_PARAM α) := do
  let map_frame ← node.map_frame
  let map_id ← node.map_id
  let x_scale ← node.x_scale
  let y_scale ← node.y_scale
  let x_offset ← node.x_offset
  let y_offset ← node.y_offset
  let lower_bound ← node.lower_bound
  let upper_bound ← node.upper_bound
  pure { map_frame, map_id, x_scale, y_scale, x_offset, y_offset, lower_bound, upper_bound }

/-- The loop `for (int i = 0; i < n; ++i)` that reads `param<i>` and pushes it to
the back of a hyperparameter list; `none` when a `param<i>` is missing. -/
def loadHyperparams (param : List (Option (List α))) (n : Int) (acc : List (List α)) :
    Option (List (List α)) :=
  (List.range n.toNat).foldlM
    (fun acc i => match (param.get? i).join with
      | some gp_hyper_param => some (acc ++ [gp_hyper_param])
      | none => none)
    acc

/-- The members written by the loop over `model_parameters`. -/
structure ModelMembers (α : Type) where
  num_gaussian_ : Int
  gp_hyperparams_ : List (List α)
  gt_num_gaussian_ : Int
  gt_gp_hyperparams_ : List (List α)
  max_iteration_ : Int
  eps_ : α
  map_scale_ : α

/-- One iteration of the loop over `model_parameters`; `none` is `return false`. -/
def loadModelParam (m : ModelMembers α) (model_param : ModelParam α) :
    Option (ModelMembers α) := do
  let is_gt := model_param.gt.getD false
  let m ←
    if is_gt then do
      let gt_num_gaussian ← model_param.num_gaussian
      let hyper ← loadHyperparams model_param.param gt_num_gaussian m.gt_gp_hyperparams_
      pure { m with gt_num_gaussian_ := gt_num_gaussian, gt_gp_hyperparams_ := hyper }
    else do
      let num_gaussian ← model_param.num_gaussian
      let hyper ← loadHyperparams model_param.param num_gaussian m.gp_hyperparams_
      pure { m with num_gaussian_ := num_gaussian, gp_hyperparams_ := hyper }
  let max_iteration ← model_param.max_iteration
  let eps ← model_param.eps
  let map_scale ← model_param.map_scale
  pure { m with max_iteration_ := max_iteration, eps_ := eps, map_scale_ := map_scale }

/-- The `switch` on `selection_model`. -/
def selectionMode (selection_model : Int) : SAMPLINGMODE :=
  if selection_model = 0 then .VARIANCE
  else if selection_model = 1 then .UCB
  else .VARIANCE

/-- The part of `ParseFromRosParam` after the data block, which has no undefined
step; `none` is `return false`. -/
def parseSettings (indet : Indeterminate α) (rh : RosParam α)
    (location ground_truth_temperature ground_truth_location init_sample_location
      init_sample_temperature collected_locations : MatrixXd α)
    (collected_temperatures : VectorXd α) : Option (Parameters α) := do
  let learning_param_list ← rh.learning_parameters
  let learning_param ← learning_param_list.head?
  let model_update_rate ← learning_param.model_update_rate
  let model_param_list ← rh.model_parameters
  let _ ← model_param_list.head?
  let m ← model_param_list.foldlM loadModelParam
    { num_gaussian_ := indet.num_gaussian_, gp_hyperparams_ := [],
      gt_num_gaussian_ := indet.gt_num_gaussian_, gt_gp_hyperparams_ := [],
      max_iteration_ := indet.max_iteration_, eps_ := indet.eps_,
      map_scale_ := indet.map_scale_ }
  let sampling_param_list ← rh.sampling_parameters
  let sampling_param ← sampling_param_list.head?
  let selection_model ← sampling_param.selection_model
  let selection_mode := selectionMode selection_model
  let Jackal_id ← sampling_param.Jackal_id
  let Pelican_id ← sampling_param.Pelican_id
  let variance_coef ← sampling_param.variance_coef_
  let visualization_params ← rh.visualization_parameters.mapM LoadMapParam
  pure {
    location_ := location
    ground_truth_location_ := ground_truth_location
    ground_truth_temperature_ := ground_truth_temperature
    init_sample_location_ := init_sample_location
    init_sample_temperature_ := init_sample_temperature
    collected_temperatures_ := collected_temperatures
    collected_locations_ := collected_locations
    model_update_rate_ := model_update_rate
    num_gaussian_ := m.num_gaussian_
    gp_hyperparams_ := m.gp_hyperparams_
    gt_num_gaussian_ := m.gt_num_gaussian_
    gt_gp_hyperparams_ := m.gt_gp_hyperparams_
    max_iteration_ := m.max_iteration_
    eps_ := m.eps_
    map_scale_ := m.map_scale_
    selection_mode_ := selection_mode
    Jackal_id_ := Jackal_id
    Pelican_id_ := Pelican_id
    variance_coef_ := variance_coef
    visualization_params_ := visualization_params }

/-- `SamplingCore::ParseFromRosParam()` on a freshly constructed object: the
members it has written when it returns `true` (`some`), or `none` when it returns
`false`. -/
def ParseFromRosParam (indet : Indeterminate α) (rh : RosParam α) :
    Outcome (Option (Parameters α)) :=
  match rh.data_path with
  | none => .done none
  | some [] => .done none
  | some (data_path :: _) =>
    match data_path.location_data with
    | none => .done none
    | some location =>
      let ground_truth_temperature :=
        data_path.ground_truth_temperature_data.getD MatrixXd.empty
      let ground_truth_location :=
        data_path.ground_truth_location_data.getD MatrixXd.empty
      match data_path.initial_location_data with
      | none => .done none
      | some init_sample_location =>
        match data_path.initial_temperature_data with
        | none => .done none
        | some init_sample_temperature =>
          let collected_locations := init_sample_temperature
          match init_sample_location.toVectorXd with
          | .undefined why => .undefined why
          | .done collected_temperatures =>
            .done (parseSettings indet rh location ground_truth_temperature
              ground_truth_location init_sample_location init_sample_temperature
              collected_locations collected_temperatures)

/-- What `InitializeVisualization` builds: the frames of `visualization_node_`
and whether the two robot nodes exist. -/
structure VisualizationNodes where
  visualization_node_ : List String
  Jackal_visualization_node_ : Bool
  Pelican_visualization_node_ : Bool
  deriving DecidableEq, Repr

/-- One iteration of the loop of `InitializeVisualization`. -/
def initializeFrame (p : Parameters α) (nodes : VisualizationNodes) (param : MAP_PARAM α) :
    Outcome VisualizationNodes :=
  let frame := param.map_frame
  let inserted : List String :=
    if nodes.visualization_node_.contains frame then nodes.visualization_node_
    else nodes.visualization_node_ ++ [frame]
  if frame = "gt" then .done nodes
  else if frame = "mean" then .done { nodes with visualization_node_ := inserted }
  else if frame = "variance" then .done { nodes with visualization_node_ := inserted }
  else if frame = "raw" then do
    let _ ← p.init_sample_temperature_.col0
    pure { nodes with visualization_node_ := inserted }
  else if frame = "Jackal" then .done { nodes with Jackal_visualization_node_ := true }
  else if frame = "Pelican" then .done { nodes with Pelican_visualization_node_ := true }
  else .done nodes

/-- `SamplingCore::InitializeVisualization()`, which always returns `true`. -/
def InitializeVisualization (p : Parameters α) : Outcome VisualizationNodes :=
  p.visualization_params_.foldlM (initializeFrame p)
    { visualization_node_ := [], Jackal_visualization_node_ := false,
      Pelican_visualization_node_ := false }

/-- `SamplingCore::Init()` on a freshly constructed object: the object when `Init`
returns `true` (`some`), `none` when it returns `false`. -/
def Init (ext : Externals α GP V IS) (indet : Indeterminate α) (rh : RosParam α) :
    Outcome (Option (SamplingCore α GP V IS)) := do
  let agent_id := mapAssign (mapAssign [] "Jackal" 0) "Pelican" 1
  match ← ParseFromRosParam indet rh with
  | none => pure none
  | some p =>
    let nodes ← InitializeVisualization p
    let voronoi_node := ext.newVoronoi p.location_
    let gt_model : Option GP :=
      if !p.gt_gp_hyperparams_.isEmpty then
        some (ext.newModel p.gt_num_gaussian_ p.gt_gp_hyperparams_ p.max_iteration_ p.eps_)
      else none
    let model := ext.newModel p.num_gaussian_ p.gp_hyperparams_ p.max_iteration_ p.eps_
    let informative_sampling_node :=
      ext.newInformativeSampling p.location_ p.selection_mode_ p.variance_coef_
    let model :=
      if p.init_sample_temperature_.rows > 0 then
        ext.Train model p.init_sample_temperature_ p.init_sample_temperature_
      else model
    let gt : Option GP × VectorXd α × VectorXd α ←
      if p.ground_truth_temperature_.rows > 0 then
        match gt_model with
        | none => Outcome.undefined .null_dereference
        | some g =>
          let g := ext.Train g p.ground_truth_temperature_ p.ground_truth_location_
          let prediction := ext.Predict g p.location_
          Outcome.done (some g, prediction.1, prediction.2)
      else Outcome.done (gt_model, [], [])
    pure (some {
      toParameters := p
      gt_mean_ := gt.2.1
      gt_var_ := gt.2.2
      Jackal_latitude_ := none
      Jackal_longitude_ := none
      Pelican_latitude_ := none
      Pelican_longitude_ := none
      model_ := model
      gt_model_ := gt.1
      mean_prediction_ := []
      var_prediction_ := []
      visualization_node_ := nodes.visualization_node_
      Jackal_visualization_node_ := nodes.Jackal_visualization_node_
      Pelican_visualization_node_ := nodes.Pelican_visualization_node_
      informative_sampling_node_ := informative_sampling_node
      update_flag_ := false
      sample_size_ := 0
      voronoi_node_ := voronoi_node
      agent_id_ := agent_id })

/-! ## Events -/

/-- What reaches the coordinator after `Init`: the three subscriptions, the
service and the periodic call of `Update`. -/
inductive Event (α : Type) where
  | sample (msg : measurement α)
  | jackalGPS (msg : NavSatFix α)
  | pelicanGPS (msg : NavSatFix α)
  | update
  | request (req : Request)

/-- The object after one event. -/
def step (ext : Externals α GP V IS) (s : SamplingCore α GP V IS) :
    Event α → Outcome (SamplingCore α GP V IS)
  | .sample msg => CollectSampleCallback ext s msg
  | .jackalGPS msg => JackalGPSCallback s msg
  | .pelicanGPS msg => PelicanGPSCallback s msg
  | .update => (Update ext s).image Prod.fst
  | .request req => (AssignInterestPoint ext s req).image Prod.fst

/-- The object after a sequence of events, in order. -/
def run (ext : Externals α GP V IS) (s : SamplingCore α GP V IS) :
    List (Event α) → Outcome (SamplingCore α GP V IS)
  | [] => .done s
  | e :: es => (step ext s e).bind (fun s => run ext s es)

end Scalar

/-! ## A concrete instance

Stand-ins over `ℤ` for the external classes, used to evaluate the embedded code on
concrete inputs: the model records the pairs it was trained on, the partitioner
assigns a grid point to the nearest agent (lowest id on a tie), the policy picks
the allowed index of largest variance. -/

namespace Concrete

/-- Stand-in for the mixture model: the arguments of its `Train` calls, in order. -/
abbrev GP := List (MatrixXd ℤ × MatrixXd ℤ)

/-- Stand-in for `voronoi::Voronoi`: the grid it was built from. -/
abbrev V := MatrixXd ℤ

/-- Stand-in for `InformativeSampling`: the grid it was built from. -/
abbrev IS := MatrixXd ℤ

/-- Squared Euclidean distance of two coordinate rows. -/
def dist2 (p q : List ℤ) : ℤ :=
  (p.getD 0 0 - q.getD 0 0) * (p.getD 0 0 - q.getD 0 0)
    + (p.getD 1 0 - q.getD 1 0) * (p.getD 1 0 - q.getD 1 0)

/-- Index of the agent nearest to the grid point `p`, the lowest index on a tie. -/
def owner (agents : List (List ℤ)) (p : List ℤ) : Nat :=
  (List.range agents.length).foldl
    (fun best a => if dist2 (agents.getD a []) p < dist2 (agents.getD best []) p then a else best)
    0

/-- The grid indices owned by `agent_id`. -/
def cell (grid : V) (agent_locations : MatrixXd ℤ) (agent_id : Int) : List Int :=
  ((List.range grid.rows).filter
    (fun i => (owner agent_locations.data (grid.data.getD i []) : Int) = agent_id)).map
    Int.ofNat

/-- The allowed index of largest variance (the first one on a tie) and the grid
coordinates there. -/
def select (grid : IS) (_mean var : VectorXd ℤ) (cell_index : List Int) : ℤ × ℤ :=
  match cell_index with
  | [] => (0, 0)
  | i :: rest =>
    let best := rest.foldl
      (fun b j => if var.getD b.toNat 0 < var.getD j.toNat 0 then j else b) i
    ((grid.data.getD best.toNat []).getD 0 0, (grid.data.getD best.toNat []).getD 1 0)

/-- The stand-ins as a record. -/
def ext : Externals ℤ GP V IS where
  newModel := fun _ _ _ _ => []
  Train := fun g first second => g ++ [(first, second)]
  Predict := fun _ location =>
    (List.replicate location.rows 0, (List.range location.rows).map Int.ofNat)
  newVoronoi := fun location => location
  GetSingleVoronoiCellIndex := cell
  newInformativeSampling := fun location _ _ => location
  SelectInformativeLocation := select
  sqrt := fun x => Int.ofNat (Nat.sqrt x.toNat)
  uninitialized := 0

/-- A grid of four points on a line. -/
def grid : MatrixXd ℤ := ⟨2, [[0, 0], [1, 0], [2, 0], [3, 0]]⟩

/-- Parameters of a coordinator on `grid` with map scale 2 and update rate 2. -/
def parameters : Parameters ℤ where
  location_ := grid
  ground_truth_location_ := MatrixXd.empty
  ground_truth_temperature_ := MatrixXd.empty
  init_sample_location_ := ⟨2, []⟩
  init_sample_temperature_ := ⟨1, []⟩
  collected_temperatures_ := []
  collected_locations_ := ⟨2, []⟩
  model_update_rate_ := 2
  num_gaussian_ := 1
  gp_hyperparams_ := [[1, 1, 1]]
  gt_num_gaussian_ := 0
  gt_gp_hyperparams_ := []
  max_iteration_ := 10
  eps_ := 1
  map_scale_ := 2
  selection_mode_ := .VARIANCE
  Jackal_id_ := "Jackal"
  Pelican_id_ := "Pelican"
  variance_coef_ := 1
  visualization_params_ := []

/-- A coordinator as `Init` leaves it (no position known, nothing predicted yet),
with the visualization nodes present. -/
def ready : SamplingCore ℤ GP V IS where
  toParameters := parameters
  gt_mean_ := []
  gt_var_ := []
  Jackal_latitude_ := none
  Jackal_longitude_ := none
  Pelican_latitude_ := none
  Pelican_longitude_ := none
  model_ := []
  gt_model_ := none
  mean_prediction_ := []
  var_prediction_ := []
  visualization_node_ := ["mean", "variance"]
  Jackal_visualization_node_ := true
  Pelican_visualization_node_ := true
  informative_sampling_node_ := grid
  update_flag_ := false
  sample_size_ := 0
  voronoi_node_ := grid
  agent_id_ := [("Jackal", 0), ("Pelican", 1)]

/-- The state `ready` once the Jackal has reported the position (0, 0). -/
def jackalKnown : SamplingCore ℤ GP V IS :=
  { ready with Jackal_latitude_ := some 0, Jackal_longitude_ := some 0 }

/-- The state `ready` once both robots have reported their positions, the Jackal at
(0, 0) and the Pelican at (4, 0), and a prediction is in place. -/
def bothKnown : SamplingCore ℤ GP V IS :=
  { jackalKnown with
    Pelican_latitude_ := some 4
    Pelican_longitude_ := some 0
    mean_prediction_ := [0, 0, 0, 0]
    var_prediction_ := [0, 1, 2, 3] }

/-- A valid measurement of value 7 at (1, 1). -/
def validSample : measurement ℤ :=
  { valid := true, robot_id := "Jackal", location_x := 1, location_y := 1, measurement := 7 }

/-- An invalid measurement. -/
def invalidSample : measurement ℤ :=
  { validSample with valid := false }

/-- The state `ready` with a location log of one column, the shape of the
temperature matrix. -/
def oneColumnLog : SamplingCore ℤ GP V IS :=
  { ready with collected_locations_ := ⟨1, [[20]]⟩, collected_temperatures_ := [0] }

/-- The state `ready` with an update rate of zero. -/
def zeroRate : SamplingCore ℤ GP V IS :=
  { ready with model_update_rate_ := 0 }

/-- The state `ready` with the counter at the largest `int`. -/
def fullCounter : SamplingCore ℤ GP V IS :=
  { ready with sample_size_ := INT_MAX }

/-- A visualization entry with all its fields, for the frame `frame`. -/
def mapParamNode (frame : String) : MapParamNode ℤ :=
  { map_frame := some frame, map_id := some 0, x_scale := some 1, y_scale := some 1,
    x_offset := some 0, y_offset := some 0, lower_bound := some 0, upper_bound := some 1 }

/-- Parameters on which `Init` returns `true`: the grid of four points, two initial
samples (temperatures 20 and 21) and no ground truth. The initial location matrix
has one column, which is what the assignment to the vector `collected_temperatures_`
in `ParseFromRosParam` requires. -/
def rosParam : RosParam ℤ where
  data_path := some [{
    location_data := some grid
    ground_truth_temperature_data := none
    ground_truth_location_data := none
    initial_location_data := some ⟨1, [[0], [3]]⟩
    initial_temperature_data := some ⟨1, [[20], [21]]⟩ }]
  learning_parameters := some [{ model_update_rate := some 2 }]
  model_parameters := some [{
    gt := none
    num_gaussian := some 1
    param := [some [1, 1, 1]]
    max_iteration := some 10
    eps := some 1
    map_scale := some 2 }]
  sampling_parameters := some [{
    selection_model := some 0
    Jackal_id := some "Jackal"
    Pelican_id := some "Pelican"
    variance_coef_ := some 1 }]
  visualization_parameters :=
    [mapParamNode "mean", mapParamNode "variance", mapParamNode "Jackal",
      mapParamNode "Pelican"]

/-- Values for the scalar members that the constructor does not initialise. -/
def indeterminate : Indeterminate ℤ :=
  { num_gaussian_ := 0, gt_num_gaussian_ := 0, max_iteration_ := 0, eps_ := 0,
    map_scale_ := 0 }

/-- The state `bothKnown` with the retrain flag set. -/
def retrainDue : SamplingCore ℤ GP V IS :=
  { bothKnown with update_flag_ := true }

/-- The state `retrainDue` with a ground-truth model and a ground-truth
prediction. -/
def retrainDueWithTruth : SamplingCore ℤ GP V IS :=
  { retrainDue with gt_mean_ := [5, 6, 7, 8], gt_var_ := [1, 1, 1, 1], gt_model_ := some [] }

/-- The parameters `rosParam` with the two initial samples located at (0, 0) and
(3, 0): a 2 × 2 initial location matrix next to the 2 × 1 temperature matrix. -/
def rosParamTwoColumns : RosParam ℤ :=
  { rosParam with
    data_path := some [{
      location_data := some grid
      ground_truth_temperature_data := none
      ground_truth_location_data := none
      initial_location_data := some ⟨2, [[0, 0], [3, 0]]⟩
      initial_temperature_data := some ⟨1, [[20], [21]]⟩ }] }

/-- The parameters `rosParam` with a ground truth: three ground-truth samples
(temperatures 30, 31, 32 at (0, 0), (1, 0), (2, 0)) and a second entry of
`model_parameters` flagged `gt`. -/
def rosParamWithTruth : RosParam ℤ :=
  { rosParam with
    data_path := some [{
      location_data := some grid
      ground_truth_temperature_data := some ⟨1, [[30], [31], [32]]⟩
      ground_truth_location_data := some ⟨2, [[0, 0], [1, 0], [2, 0]]⟩
      initial_location_data := some ⟨1, [[0], [3]]⟩
      initial_temperature_data := some ⟨1, [[20], [21]]⟩ }]
    model_parameters := some [
      { gt := none, num_gaussian := some 1, param := [some [1, 1, 1]],
        max_iteration := some 10, eps := some 1, map_scale := some 2 },
      { gt := some true, num_gaussian := some 1, param := [some [2, 2, 2]],
        max_iteration := some 10, eps := some 1, map_scale := some 2 }] }

/-- The state `ready` once the Pelican alone has reported the position (4, 0). -/
def pelicanKnown : SamplingCore ℤ GP V IS :=
  { ready with Pelican_latitude_ := some 4, Pelican_longitude_ := some 0 }

end Concrete

/-! ## Notions used to state the claims -/

section Notions

variable {α GP V IS : Type}

/-- The valid events of a sequence of measurement events, in arrival order. -/
def validEvents (msgs : List (measurement α)) : List (measurement α) :=
  msgs.filter (fun msg => msg.valid)

/-- Number of valid measurement events in a sequence of events. -/
def validCount : List (Event α) → Nat
  | [] => 0
  | .sample msg :: es => (if msg.valid then 1 else 0) + validCount es
  | _ :: es => validCount es

/-- The retrain flag as the amended claim on retraining describes it, after a
sequence of events: starting from `flag` with `n` valid measurements received so
far and threshold `T`, a valid measurement sets the flag when the number of valid
measurements, this one included, is a multiple of `T`; `Update` clears the flag;
nothing else touches it. -/
def flagAfter (T : Int) : Bool → Int → List (Event α) → Bool
  | flag, _, [] => flag
  | flag, n, .sample msg :: es =>
    if msg.valid then flagAfter T (flag || decide ((n + 1) % T = 0)) (n + 1) es
    else flagAfter T flag n es
  | _, n, .update :: es => flagAfter T false n es
  | flag, n, _ :: es => flagAfter T flag n es

/-- A state with its ground-truth data (`gt_mean_`, `gt_var_`, `gt_model_`)
blanked: two states differ only in the ground-truth data when their blanked
states are equal. -/
def eraseGroundTruth (s : SamplingCore α GP V IS) : SamplingCore α GP V IS :=
  { s with gt_mean_ := [], gt_var_ := [], gt_model_ := none }

variable [Zero α] [Add α] [Sub α] [Mul α] [Div α] [NatCast α]

/-- The count the claim on retraining speaks of, kept alongside a run: `count` is
the number of valid measurements received since the most recent retrain performed
by `Update` (an `Update` call retrains exactly when it finds `update_flag_` set),
or since the start of the run when none has happened. -/
def runCounting (ext : Externals α GP V IS) :
    SamplingCore α GP V IS → Nat → List (Event α) → Outcome (SamplingCore α GP V IS × Nat)
  | s, count, [] => .done (s, count)
  | s, count, e :: es =>
    (step ext s e).bind (fun s' =>
      runCounting ext s'
        (match e with
          | .sample msg => if msg.valid then count + 1 else count
          | .update => if s.update_flag_ then 0 else count
          | _ => count)
        es)

end Notions

/-! # Theorems -/

section Lemmas

variable {α GP V IS : Type}

theorem Outcome.bind_done {σ τ : Type} (v : σ) (f : σ → Outcome τ) :
    (Outcome.done v >>= f) = f v := rfl

theorem Outcome.bind_undefined {σ τ : Type} (w : UB) (f : σ → Outcome τ) :
    (Outcome.undefined w >>= f) = Outcome.undefined w := rfl

theorem Outcome.pure_eq {σ : Type} (v : σ) : (pure v : Outcome σ) = Outcome.done v := rfl

theorem mapIndex_of_lookup {m : List (String × Int)} {key : String} {v : Int}
    (h : m.lookup key = some v) : mapIndex m key = (v, m) := by
  simp [mapIndex, h]

end Lemmas

section AssignInterestPoint

variable {α GP V IS : Type}

/-- C1 (the code departs from the claim). Whenever one of the four position
optionals is unset, whoever the requesting robot is, `AssignInterestPoint` unwraps
it with `get()` and the execution is undefined: no error result is returned. In
particular, on the state that `Init` leaves (no position known), a request of the
Jackal ends in the unchecked unwrap of `Jackal_latitude_`. -/
theorem AssignInterestPoint_unwraps_unset_position (ext : Externals α GP V IS)
    (s : SamplingCore α GP V IS) (req : Request) (a b c : α) :
    AssignInterestPoint ext { s with Jackal_latitude_ := none } req
        = .undefined .optional_get_unset
    ∧ AssignInterestPoint ext
          { s with Jackal_latitude_ := some a, Jackal_longitude_ := none } req
        = .undefined .optional_get_unset
    ∧ AssignInterestPoint ext
          { s with Jackal_latitude_ := some a, Jackal_longitude_ := some b,
                   Pelican_latitude_ := none } req
        = .undefined .optional_get_unset
    ∧ AssignInterestPoint ext
          { s with Jackal_latitude_ := some a, Jackal_longitude_ := some b,
                   Pelican_latitude_ := some c, Pelican_longitude_ := none } req
        = .undefined .optional_get_unset
    ∧ AssignInterestPoint Concrete.ext Concrete.ready ⟨"Jackal"⟩
        = .undefined .optional_get_unset :=
  ⟨rfl, rfl, rfl, rfl, rfl⟩

/-- C2 (the code departs from the claim). With both positions known, a request
whose `robot_id` ("Husky") is no key of the agent table returns `true` with the
very response computed for the Jackal (agent id 0), and the table has gained the
entry ("Husky", 0). -/
theorem AssignInterestPoint_unknown_robot_served_as_agent_zero :
    AssignInterestPoint Concrete.ext Concrete.bothKnown ⟨"Husky"⟩
        = .done ({ Concrete.bothKnown with
                    agent_id_ := [("Jackal", 0), ("Pelican", 1), ("Husky", 0)] },
                 true, ⟨2, 0⟩)
    ∧ (AssignInterestPoint Concrete.ext Concrete.bothKnown ⟨"Jackal"⟩).image
          (fun r => r.2) = .done (true, ⟨2, 0⟩)
    ∧ mapKeys Concrete.bothKnown.agent_id_ = ["Jackal", "Pelican"] := by
  decide

/-- C3 (the code departs from the claim). With the position of one agent known
and the position of the other unknown, `AssignInterestPoint` does not succeed,
whoever asks: it unwraps the unset optional of the other agent and the execution
is undefined. So it is on the state where only the Jackal has reported (request of
the Jackal) and on the state where only the Pelican has reported (request of the
Pelican). This is the unchecked unwrap of C1. -/
theorem AssignInterestPoint_one_known_position_not_served (ext : Externals α GP V IS)
    (s : SamplingCore α GP V IS) (req : Request) (a b : α) :
    AssignInterestPoint ext
        { s with Jackal_latitude_ := some a, Jackal_longitude_ := some b,
                 Pelican_latitude_ := none, Pelican_longitude_ := none } req
      = .undefined .optional_get_unset
    ∧ AssignInterestPoint ext
        { s with Jackal_latitude_ := none, Jackal_longitude_ := none,
                 Pelican_latitude_ := some a, Pelican_longitude_ := some b } req
      = .undefined .optional_get_unset
    ∧ Concrete.jackalKnown.Jackal_latitude_ = some 0
    ∧ Concrete.jackalKnown.Jackal_longitude_ = some 0
    ∧ Concrete.jackalKnown.Pelican_latitude_ = none
    ∧ AssignInterestPoint Concrete.ext Concrete.jackalKnown ⟨"Jackal"⟩
        = .undefined .optional_get_unset
    ∧ Concrete.pelicanKnown.Pelican_latitude_ = some 4
    ∧ Concrete.pelicanKnown.Pelican_longitude_ = some 0
    ∧ Concrete.pelicanKnown.Jackal_latitude_ = none
    ∧ AssignInterestPoint Concrete.ext Concrete.pelicanKnown ⟨"Pelican"⟩
        = .undefined .optional_get_unset :=
  ⟨rfl, rfl, by decide, by decide, by decide, by decide, by decide, by decide, by decide,
    by decide⟩

end AssignInterestPoint

section CollectSampleCallback

variable {α GP V IS : Type}

/-- C4. A measurement event whose validity flag is false leaves the whole object
as it was, so the valid-sample counter, the retrain flag, the value log and the
location log are unchanged. -/
theorem CollectSampleCallback_invalid_unchanged [Mul α] (ext : Externals α GP V IS)
    (s : SamplingCore α GP V IS) (msg : measurement α) (hinvalid : msg.valid = false) :
    CollectSampleCallback ext s msg = .done s
    ∧ (CollectSampleCallback ext s msg).image
        (fun t => (t.sample_size_, t.update_flag_, t.collected_temperatures_,
          t.collected_locations_))
      = .done (s.sample_size_, s.update_flag_, s.collected_temperatures_,
          s.collected_locations_) := by
  have h : CollectSampleCallback ext s msg = .done s := by
    simp [CollectSampleCallback, hinvalid, Outcome.pure_eq]
  exact ⟨h, by rw [h]; rfl⟩

/-- Witness of `CollectSampleCallback_invalid_unchanged`: an invalid measurement
on the state that `Init` leaves. -/
theorem CollectSampleCallback_invalid_unchanged_witness :
    CollectSampleCallback Concrete.ext Concrete.ready Concrete.invalidSample
        = .done Concrete.ready
    ∧ (CollectSampleCallback Concrete.ext Concrete.ready Concrete.invalidSample).image
        (fun t => (t.sample_size_, t.update_flag_, t.collected_temperatures_,
          t.collected_locations_))
      = .done (Concrete.ready.sample_size_, Concrete.ready.update_flag_,
          Concrete.ready.collected_temperatures_, Concrete.ready.collected_locations_) :=
  CollectSampleCallback_invalid_unchanged Concrete.ext Concrete.ready
    Concrete.invalidSample rfl

/-- The object after a valid measurement, when the counter does not overflow, the
update rate is not zero and the location log has at least two columns. -/
theorem CollectSampleCallback_valid [Mul α] (ext : Externals α GP V IS)
    (s : SamplingCore α GP V IS) (msg : measurement α) (hvalid : msg.valid = true)
    (hnonneg : 0 ≤ s.sample_size_) (hmax : s.sample_size_ < INT_MAX)
    (hrate : s.model_update_rate_ ≠ 0) (hcols : 2 ≤ s.collected_locations_.cols) :
    CollectSampleCallback ext s msg = .done { s with
      sample_size_ := s.sample_size_ + 1
      update_flag_ :=
        if Int.tmod (s.sample_size_ + 1) s.model_update_rate_ = 0 then true
        else s.update_flag_
      collected_temperatures_ := s.collected_temperatures_ ++ [msg.measurement]
      collected_locations_ :=
        { cols := s.collected_locations_.cols
          data := s.collected_locations_.data ++
            [((List.replicate s.collected_locations_.cols ext.uninitialized).set 0
                (msg.location_x * s.map_scale_)).set 1 (msg.location_y * s.map_scale_)] } } := by
  have hmin : ¬ (s.sample_size_ + 1 = INT_MIN) := by
    unfold INT_MIN; omega
  have h0 : 0 < s.collected_locations_.cols := by omega
  have h1 : 1 < s.collected_locations_.cols := by omega
  simp [CollectSampleCallback, hvalid, intIncrement, hmax, intRemainder, hrate, hmin,
    MsgToMatrix, MatrixXd.coeff, MatrixXd.setCoeff, vectorSet,
    MatrixXd.conservativeResizeAddRow, MatrixXd.rows, Outcome.bind_done, Outcome.pure_eq,
    h0, h1]

/-- The fields of the object after a valid measurement, under the conditions of
`CollectSampleCallback_valid`. -/
theorem CollectSampleCallback_valid_fields [Mul α] (ext : Externals α GP V IS)
    (s : SamplingCore α GP V IS) (msg : measurement α) (hvalid : msg.valid = true)
    (hnonneg : 0 ≤ s.sample_size_) (hmax : s.sample_size_ < INT_MAX)
    (hrate : s.model_update_rate_ ≠ 0) (hcols : 2 ≤ s.collected_locations_.cols) :
    ∃ t, CollectSampleCallback ext s msg = .done t
      ∧ t.sample_size_ = s.sample_size_ + 1
      ∧ t.update_flag_ =
          (decide (Int.tmod (s.sample_size_ + 1) s.model_update_rate_ = 0) || s.update_flag_)
      ∧ t.model_update_rate_ = s.model_update_rate_
      ∧ t.map_scale_ = s.map_scale_
      ∧ t.collected_temperatures_ = s.collected_temperatures_ ++ [msg.measurement]
      ∧ t.collected_locations_ =
          { cols := s.collected_locations_.cols
            data := s.collected_locations_.data ++
              [((List.replicate s.collected_locations_.cols ext.uninitialized).set 0
                  (msg.location_x * s.map_scale_)).set 1 (msg.location_y * s.map_scale_)] } := by
  refine ⟨_, CollectSampleCallback_valid ext s msg hvalid hnonneg hmax hrate hcols,
    rfl, ?_, rfl, rfl, rfl, rfl⟩
  by_cases h : Int.tmod (s.sample_size_ + 1) s.model_update_rate_ = 0 <;> simp [h]

end CollectSampleCallback

section MeasurementLog

variable {α GP V IS : Type}
variable [Zero α] [Add α] [Sub α] [Mul α] [Div α] [NatCast α]

theorem run_cons (ext : Externals α GP V IS) (s : SamplingCore α GP V IS) (e : Event α)
    (es : List (Event α)) :
    run ext s (e :: es) = (step ext s e).bind (fun t => run ext t es) := rfl

theorem run_append (ext : Externals α GP V IS) (s : SamplingCore α GP V IS)
    (es fs : List (Event α)) :
    run ext s (es ++ fs) = (run ext s es).bind (fun t => run ext t fs) := by
  induction es generalizing s with
  | nil => rfl
  | cons e es ih =>
    simp only [List.cons_append, run_cons]
    cases step ext s e with
    | done t => exact ih t
    | undefined w => rfl

/-- The two logs after a sequence of measurement events, as lists. -/
theorem run_samples_logs (ext : Externals α GP V IS) (msgs : List (measurement α)) :
    ∀ (s : SamplingCore α GP V IS), 0 ≤ s.sample_size_ →
      s.sample_size_ + (validEvents msgs).length ≤ INT_MAX →
      s.model_update_rate_ ≠ 0 → s.collected_locations_.cols = 2 →
      ∃ t, run ext s (msgs.map Event.sample) = .done t
        ∧ t.collected_temperatures_ =
            s.collected_temperatures_ ++ (validEvents msgs).map (fun m => m.measurement)
        ∧ t.collected_locations_ =
            { cols := 2
              data := s.collected_locations_.data ++ (validEvents msgs).map
                (fun m => [m.location_x * s.map_scale_, m.location_y * s.map_scale_]) } := by
  induction msgs with
  | nil =>
    intro s _ _ _ hcols
    refine ⟨s, rfl, by simp [validEvents], ?_⟩
    cases hs : s.collected_locations_ with
    | mk c d =>
      rw [hs] at hcols
      simp at hcols
      simp [validEvents, hcols]
  | cons msg msgs ih =>
    intro s hnonneg hmax hrate hcols
    cases hv : msg.valid with
    | false =>
      have hstep : step ext s (.sample msg) = .done s := by
        simp [step, CollectSampleCallback, hv, Outcome.pure_eq]
      have hval : validEvents (msg :: msgs) = validEvents msgs := by
        simp [validEvents, hv]
      rw [hval] at hmax ⊢
      obtain ⟨t, ht, h1, h2⟩ := ih s hnonneg hmax hrate hcols
      exact ⟨t, by simp [List.map_cons, run_cons, hstep, Outcome.bind, ht], h1, h2⟩
    | true =>
      have hval : validEvents (msg :: msgs) = msg :: validEvents msgs := by
        simp [validEvents, hv]
      rw [hval] at hmax ⊢
      simp only [List.length_cons] at hmax
      have hlt : s.sample_size_ < INT_MAX := by push_cast at hmax; omega
      obtain ⟨s1, hstep, hsize, _, hr, hscale, htemp, hloc⟩ :=
        CollectSampleCallback_valid_fields ext s msg hv hnonneg hlt hrate (by omega)
      have hcols1 : s1.collected_locations_.cols = 2 := by rw [hloc]; exact hcols
      obtain ⟨t, ht, h1, h2⟩ := ih s1 (by omega) (by push_cast at hmax; omega)
        (by rw [hr]; exact hrate) hcols1
      refine ⟨t, ?_, ?_, ?_⟩
      · simp [List.map_cons, run_cons, step, hstep, Outcome.bind, ht]
      · rw [h1, htemp]; simp
      · rw [h2, hloc, hscale]; simp [hcols, List.replicate]

end MeasurementLog

section MeasurementLogClaims

variable {α GP V IS : Type}
variable [Zero α] [Add α] [Sub α] [Mul α] [Div α] [NatCast α]

/-- C5, as stated, fails. A valid measurement at (1, 1) on a coordinator with map
scale 2 appends the row (2, 2) to the location log, not the location (1, 1) of the
event; and a sequence of one valid measurement is not defined on every state: not
when the location log has one column, when the update rate is zero or when the
counter is at the largest `int`. -/
theorem measurement_log_location_is_not_event_location :
    (run Concrete.ext Concrete.ready [Event.sample Concrete.validSample]).image
        (fun t => t.collected_locations_.data) = .done [[2, 2]]
    ∧ Concrete.ready.collected_locations_.data
        ++ (validEvents [Concrete.validSample]).map (fun m => [m.location_x, m.location_y])
        = [[1, 1]]
    ∧ run Concrete.ext Concrete.oneColumnLog [Event.sample Concrete.validSample]
        = .undefined .index_out_of_range
    ∧ run Concrete.ext Concrete.zeroRate [Event.sample Concrete.validSample]
        = .undefined .int_division
    ∧ run Concrete.ext Concrete.fullCounter [Event.sample Concrete.validSample]
        = .undefined .int_overflow :=
  ⟨by decide, by decide, by decide, by decide, by decide⟩

/-- C5, amended. On a state whose location log has two columns, whose update rate
is not zero and whose counter stays within `int`, every finite sequence of
measurement events runs to completion; the value log and the location log each
grow by exactly the number of valid events; every entry present before is
unchanged at its index; the k-th appended value is the measurement of the k-th
valid event, and the k-th appended location row is the location of the k-th valid
event multiplied by `map_scale_`. -/
theorem measurement_log_append_only (ext : Externals α GP V IS)
    (s : SamplingCore α GP V IS) (msgs : List (measurement α))
    (hnonneg : 0 ≤ s.sample_size_)
    (hmax : s.sample_size_ + (validEvents msgs).length ≤ INT_MAX)
    (hrate : s.model_update_rate_ ≠ 0) (hcols : s.collected_locations_.cols = 2) :
    ∃ t, run ext s (msgs.map Event.sample) = .done t
      ∧ t.collected_temperatures_.length
          = s.collected_temperatures_.length + (validEvents msgs).length
      ∧ t.collected_locations_.rows
          = s.collected_locations_.rows + (validEvents msgs).length
      ∧ t.collected_locations_.cols = 2
      ∧ (∀ i, i < s.collected_temperatures_.length →
          t.collected_temperatures_[i]? = s.collected_temperatures_[i]?)
      ∧ (∀ i, i < s.collected_locations_.rows →
          t.collected_locations_.data[i]? = s.collected_locations_.data[i]?)
      ∧ (∀ k (hk : k < (validEvents msgs).length),
          t.collected_temperatures_[s.collected_temperatures_.length + k]?
            = some (validEvents msgs)[k].measurement)
      ∧ (∀ k (hk : k < (validEvents msgs).length),
          t.collected_locations_.data[s.collected_locations_.rows + k]?
            = some [(validEvents msgs)[k].location_x * s.map_scale_,
                    (validEvents msgs)[k].location_y * s.map_scale_]) := by
  obtain ⟨t, ht, h1, h2⟩ := run_samples_logs ext msgs s hnonneg hmax hrate hcols
  refine ⟨t, ht, ?_, ?_, ?_, ?_, ?_, ?_, ?_⟩
  · rw [h1]; simp
  · rw [h2]; simp [MatrixXd.rows]
  · rw [h2]
  · intro i hi
    rw [h1, List.getElem?_append_left hi]
  · intro i hi
    rw [h2]
    exact List.getElem?_append_left hi
  · intro k hk
    rw [h1, List.getElem?_append_right (Nat.le_add_right _ _)]
    simp [hk]
  · intro k hk
    rw [h2]
    show (s.collected_locations_.data ++ _)[s.collected_locations_.data.length + k]? = _
    rw [List.getElem?_append_right (Nat.le_add_right _ _)]
    simp [hk]

/-- Witness of `measurement_log_append_only`: a valid, an invalid and a valid
measurement on the state that `Init` leaves. -/
theorem measurement_log_append_only_witness :
    ∃ t, run Concrete.ext Concrete.ready
          ([Concrete.validSample, Concrete.invalidSample, Concrete.validSample].map
            Event.sample) = .done t
      ∧ t.collected_temperatures_.length
          = Concrete.ready.collected_temperatures_.length
            + (validEvents [Concrete.validSample, Concrete.invalidSample,
                Concrete.validSample]).length
      ∧ t.collected_locations_.rows
          = Concrete.ready.collected_locations_.rows
            + (validEvents [Concrete.validSample, Concrete.invalidSample,
                Concrete.validSample]).length
      ∧ t.collected_locations_.cols = 2
      ∧ (∀ i, i < Concrete.ready.collected_temperatures_.length →
          t.collected_temperatures_[i]? = Concrete.ready.collected_temperatures_[i]?)
      ∧ (∀ i, i < Concrete.ready.collected_locations_.rows →
          t.collected_locations_.data[i]? = Concrete.ready.collected_locations_.data[i]?)
      ∧ (∀ k (hk : k < (validEvents [Concrete.validSample, Concrete.invalidSample,
                Concrete.validSample]).length),
          t.collected_temperatures_[Concrete.ready.collected_temperatures_.length + k]?
            = some (validEvents [Concrete.validSample, Concrete.invalidSample,
                Concrete.validSample])[k].measurement)
      ∧ (∀ k (hk : k < (validEvents [Concrete.validSample, Concrete.invalidSample,
                Concrete.validSample]).length),
          t.collected_locations_.data[Concrete.ready.collected_locations_.rows + k]?
            = some [(validEvents [Concrete.validSample, Concrete.invalidSample,
                      Concrete.validSample])[k].location_x * Concrete.ready.map_scale_,
                    (validEvents [Concrete.validSample, Concrete.invalidSample,
                      Concrete.validSample])[k].location_y * Concrete.ready.map_scale_]) :=
  measurement_log_append_only Concrete.ext Concrete.ready
    [Concrete.validSample, Concrete.invalidSample, Concrete.validSample]
    (by decide) (by decide) (by decide) (by decide)

end MeasurementLogClaims

section Retrain

variable {α GP V IS : Type}

/-- What a completed `CollectSampleCallback` leaves of the update rate, the column
count of the location log and the counter. -/
theorem CollectSampleCallback_done_inv [Mul α] (ext : Externals α GP V IS)
    (s t : SamplingCore α GP V IS) (msg : measurement α)
    (h : CollectSampleCallback ext s msg = .done t) :
    t.model_update_rate_ = s.model_update_rate_
    ∧ t.collected_locations_.cols = s.collected_locations_.cols
    ∧ t.sample_size_ = s.sample_size_ + (if msg.valid then 1 else 0) := by
  cases hv : msg.valid with
  | false =>
    simp [CollectSampleCallback, hv, Outcome.pure_eq] at h
    subst h
    simp
  | true =>
    by_cases hlt : s.sample_size_ < INT_MAX
    · by_cases hr : s.model_update_rate_ = 0
          ∨ (s.sample_size_ + 1 = INT_MIN ∧ s.model_update_rate_ = -1)
      · simp [CollectSampleCallback, hv, intIncrement, hlt, intRemainder, hr,
          Outcome.bind_done, Outcome.bind_undefined] at h
      · by_cases h0 : 0 < s.collected_locations_.cols
        · by_cases h1 : 1 < s.collected_locations_.cols
          · simp [CollectSampleCallback, hv, intIncrement, hlt, intRemainder, hr,
              MsgToMatrix, MatrixXd.coeff, MatrixXd.setCoeff, vectorSet,
              MatrixXd.conservativeResizeAddRow, MatrixXd.rows, Outcome.bind_done,
              Outcome.pure_eq, h0, h1] at h
            subst h
            simp
          · simp [CollectSampleCallback, hv, intIncrement, hlt, intRemainder, hr,
              MsgToMatrix, MatrixXd.coeff, MatrixXd.setCoeff, vectorSet,
              MatrixXd.conservativeResizeAddRow, MatrixXd.rows, Outcome.bind_done,
              Outcome.bind_undefined, Outcome.pure_eq, h0, h1] at h
        · simp [CollectSampleCallback, hv, intIncrement, hlt, intRemainder, hr,
              MsgToMatrix, MatrixXd.coeff, MatrixXd.setCoeff, vectorSet,
              MatrixXd.conservativeResizeAddRow, MatrixXd.rows, Outcome.bind_done,
              Outcome.bind_undefined, Outcome.pure_eq, h0] at h
    · simp [CollectSampleCallback, hv, intIncrement, hlt, Outcome.bind_undefined] at h

/-- A completed `AssignInterestPoint` changes at most the agent table. -/
theorem AssignInterestPoint_done_inv (ext : Externals α GP V IS)
    (s t : SamplingCore α GP V IS) (req : Request)
    (h : (AssignInterestPoint ext s req).image Prod.fst = .done t) :
    t = { s with agent_id_ := (mapIndex s.agent_id_ req.robot_id).2 } := by
  unfold AssignInterestPoint at h
  cases hA : s.Jackal_latitude_ <;> cases hB : s.Jackal_longitude_ <;>
    cases hC : s.Pelican_latitude_ <;> cases hD : s.Pelican_longitude_ <;>
    simp [hA, hB, hC, hD, optionalGet, Outcome.image, Outcome.bind_done,
      Outcome.bind_undefined, Outcome.pure_eq] at h
  exact h.symm

theorem validCount_cons (e : Event α) (es : List (Event α)) :
    validCount (e :: es) = validCount [e] + validCount es := by
  cases e <;> simp [validCount]

/-- The retrain flag after a completed valid measurement. -/
theorem CollectSampleCallback_done_flag [Mul α] (ext : Externals α GP V IS)
    (s t : SamplingCore α GP V IS) (msg : measurement α)
    (h : CollectSampleCallback ext s msg = .done t) (hv : msg.valid = true) :
    t.update_flag_
      = (s.update_flag_
          || decide (Int.tmod (s.sample_size_ + 1) s.model_update_rate_ = 0)) := by
  by_cases hlt : s.sample_size_ < INT_MAX
  · by_cases hr : s.model_update_rate_ = 0
        ∨ (s.sample_size_ + 1 = INT_MIN ∧ s.model_update_rate_ = -1)
    · simp [CollectSampleCallback, hv, intIncrement, hlt, intRemainder, hr,
        Outcome.bind_done, Outcome.bind_undefined] at h
    · by_cases h0 : 0 < s.collected_locations_.cols
      · by_cases h1 : 1 < s.collected_locations_.cols
        · simp [CollectSampleCallback, hv, intIncrement, hlt, intRemainder, hr,
            MsgToMatrix, MatrixXd.coeff, MatrixXd.setCoeff, vectorSet,
            MatrixXd.conservativeResizeAddRow, MatrixXd.rows, Outcome.bind_done,
            Outcome.pure_eq, h0, h1] at h
          subst h
          simp [Bool.or_comm]
        · simp [CollectSampleCallback, hv, intIncrement, hlt, intRemainder, hr,
            MsgToMatrix, MatrixXd.coeff, MatrixXd.setCoeff, vectorSet,
            MatrixXd.conservativeResizeAddRow, MatrixXd.rows, Outcome.bind_done,
            Outcome.bind_undefined, Outcome.pure_eq, h0, h1] at h
      · simp [CollectSampleCallback, hv, intIncrement, hlt, intRemainder, hr,
            MsgToMatrix, MatrixXd.coeff, MatrixXd.setCoeff, vectorSet,
            MatrixXd.conservativeResizeAddRow, MatrixXd.rows, Outcome.bind_done,
            Outcome.bind_undefined, Outcome.pure_eq, h0] at h
  · simp [CollectSampleCallback, hv, intIncrement, hlt, Outcome.bind_undefined] at h

/-- The predicted flag, one event at a time. -/
theorem flagAfter_cons (T : Int) (flag : Bool) (n : Int) (e : Event α) (es : List (Event α)) :
    flagAfter T flag n (e :: es)
      = flagAfter T (flagAfter T flag n [e]) (n + validCount [e]) es := by
  cases e with
  | sample msg => cases hv : msg.valid <;> simp [flagAfter, validCount, hv]
  | jackalGPS msg => simp [flagAfter, validCount]
  | pelicanGPS msg => simp [flagAfter, validCount]
  | update => simp [flagAfter, validCount]
  | request req => simp [flagAfter, validCount]

variable [Zero α] [Add α] [Sub α] [Mul α] [Div α] [NatCast α]

/-- A completed `Update` changes neither the update rate, the measurement logs
nor the counter. -/
theorem Update_done_inv (ext : Externals α GP V IS) (s t : SamplingCore α GP V IS)
    (h : (Update ext s).image Prod.fst = .done t) :
    t.model_update_rate_ = s.model_update_rate_
    ∧ t.collected_locations_ = s.collected_locations_
    ∧ t.collected_temperatures_ = s.collected_temperatures_
    ∧ t.sample_size_ = s.sample_size_ := by
  unfold Update at h
  by_cases hf : s.update_flag_ = true <;>
    by_cases hm : "mean" ∈ s.visualization_node_ <;>
    by_cases hv : "variance" ∈ s.visualization_node_ <;>
    simp [hf, hm, hv, UpdateVisualization, UpdateModel, Outcome.image, Outcome.bind_done,
      Outcome.bind_undefined, Outcome.pure_eq] at h <;>
    (subst h; simp)

/-- What a completed event leaves of the update rate, the column count of the
location log and the counter. -/
theorem step_done_inv (ext : Externals α GP V IS) (s t : SamplingCore α GP V IS)
    (e : Event α) (h : step ext s e = .done t) :
    t.model_update_rate_ = s.model_update_rate_
    ∧ t.collected_locations_.cols = s.collected_locations_.cols
    ∧ t.sample_size_ = s.sample_size_ + validCount [e] := by
  cases e with
  | sample msg =>
    have := CollectSampleCallback_done_inv ext s t msg h
    refine ⟨this.1, this.2.1, ?_⟩
    rw [this.2.2]
    cases hv : msg.valid <;> simp [validCount, hv]
  | jackalGPS msg =>
    simp only [step, JackalGPSCallback] at h
    split at h
    · cases h; simp [validCount]
    · cases h
  | pelicanGPS msg =>
    simp only [step, PelicanGPSCallback] at h
    split at h
    · cases h; simp [validCount]
    · cases h
  | update =>
    have := Update_done_inv ext s t h
    refine ⟨this.1, by rw [this.2.1], ?_⟩
    rw [this.2.2.2]; simp [validCount]
  | request req =>
    have := AssignInterestPoint_done_inv ext s t req h
    subst this
    simp [validCount]

/-- Along a completed run the update rate and the column count of the location
log stay, and the counter grows by the number of valid measurements. -/
theorem run_done_inv (ext : Externals α GP V IS) (es : List (Event α)) :
    ∀ (s t : SamplingCore α GP V IS), run ext s es = .done t →
      t.model_update_rate_ = s.model_update_rate_
      ∧ t.collected_locations_.cols = s.collected_locations_.cols
      ∧ t.sample_size_ = s.sample_size_ + validCount es := by
  induction es with
  | nil =>
    intro s t h
    cases h
    simp [validCount]
  | cons e es ih =>
    intro s t h
    rw [run_cons] at h
    cases hstep : step ext s e with
    | undefined w => rw [hstep] at h; cases h
    | done u =>
      rw [hstep] at h
      have h1 := step_done_inv ext s u e hstep
      have h2 := ih u t h
      refine ⟨by rw [h2.1, h1.1], by rw [h2.2.1, h1.2.1], ?_⟩
      rw [h2.2.2, h1.2.2, validCount_cons e es]
      push_cast
      ring

/-- What a completed `Update` leaves in the flag, the counter, the model and the
prediction. -/
theorem Update_flag_model (ext : Externals α GP V IS) (s : SamplingCore α GP V IS) :
    (Update ext s).image
        (fun r => (r.1.update_flag_, r.1.sample_size_, r.1.model_, r.1.mean_prediction_,
          r.1.var_prediction_))
      = (Update ext s).image (fun _ =>
          (false, s.sample_size_,
           if s.update_flag_ then
             ext.Train s.model_ (MatrixXd.ofVectorXd s.collected_temperatures_)
               s.collected_locations_
           else s.model_,
           if s.update_flag_ then
             (ext.Predict (ext.Train s.model_ (MatrixXd.ofVectorXd s.collected_temperatures_)
               s.collected_locations_) s.location_).1
           else s.mean_prediction_,
           if s.update_flag_ then
             (ext.Predict (ext.Train s.model_ (MatrixXd.ofVectorXd s.collected_temperatures_)
               s.collected_locations_) s.location_).2
           else s.var_prediction_)) := by
  unfold Update
  by_cases hf : s.update_flag_ = true <;>
    by_cases hm : "mean" ∈ s.visualization_node_ <;>
    by_cases hv : "variance" ∈ s.visualization_node_ <;>
    simp [hf, hm, hv, UpdateVisualization, UpdateModel, Outcome.image, Outcome.bind_done,
      Outcome.bind_undefined, Outcome.pure_eq]

/-- The retrain flag after one completed event is the predicted one. -/
theorem step_done_flag (ext : Externals α GP V IS) (s t : SamplingCore α GP V IS)
    (e : Event α) (h : step ext s e = .done t) (hT : 1 ≤ s.model_update_rate_)
    (hn : 0 ≤ s.sample_size_) :
    flagAfter s.model_update_rate_ s.update_flag_ s.sample_size_ [e] = t.update_flag_ := by
  cases e with
  | sample msg =>
    cases hv : msg.valid with
    | false =>
      simp [step, CollectSampleCallback, hv, Outcome.pure_eq] at h
      subst h
      simp [flagAfter, hv]
    | true =>
      rw [CollectSampleCallback_done_flag ext s t msg h hv,
        Int.tmod_eq_emod (by omega) (by omega)]
      simp [flagAfter, hv]
  | jackalGPS msg =>
    simp only [step, JackalGPSCallback] at h
    split at h
    · cases h; simp [flagAfter]
    · cases h
  | pelicanGPS msg =>
    simp only [step, PelicanGPSCallback] at h
    split at h
    · cases h; simp [flagAfter]
    · cases h
  | update =>
    have h2 := Update_flag_model ext s
    simp only [step] at h
    cases hu : Update ext s with
    | undefined w => rw [hu] at h; cases h
    | done r =>
      rw [hu] at h h2
      simp only [Outcome.image, Outcome.done.injEq] at h h2
      subst h
      have := congrArg Prod.fst h2
      simp only at this
      simp [flagAfter, this]
  | request req =>
    have := AssignInterestPoint_done_inv ext s t req h
    subst this
    simp [flagAfter]

/-- The retrain flag after a completed run is the predicted one. -/
theorem run_done_flag (ext : Externals α GP V IS) (es : List (Event α)) :
    ∀ (s t : SamplingCore α GP V IS), run ext s es = .done t →
      1 ≤ s.model_update_rate_ → 0 ≤ s.sample_size_ →
      t.update_flag_ = flagAfter s.model_update_rate_ s.update_flag_ s.sample_size_ es := by
  induction es with
  | nil =>
    intro s t h _ _
    cases h
    simp [flagAfter]
  | cons e es ih =>
    intro s t h hT hn
    rw [run_cons] at h
    cases hstep : step ext s e with
    | undefined w => rw [hstep] at h; cases h
    | done u =>
      rw [hstep] at h
      obtain ⟨hr, _, hs⟩ := step_done_inv ext s u e hstep
      have hf := step_done_flag ext s u e hstep hT hn
      have := ih u t h (by rw [hr]; exact hT) (by rw [hs]; omega)
      rw [this, flagAfter_cons, hf, hr, hs]

end Retrain

section RetrainClaims

variable {α GP V IS : Type}
variable [Zero α] [Add α] [Sub α] [Mul α] [Div α] [NatCast α]

/-- C6, as stated, fails. With update rate 2, after three valid measurements and
an `Update` (which retrains and clears the flag), the next valid measurement is the
first one since that retrain, not the second, and yet it sets the flag: the counter
has reached 4. -/
theorem retrain_flag_set_by_first_sample_after_retrain :
    (runCounting Concrete.ext Concrete.ready 0
        [.sample Concrete.validSample, .sample Concrete.validSample,
          .sample Concrete.validSample, .update]).bind
      (fun r => (CollectSampleCallback Concrete.ext r.1 Concrete.validSample).image
        (fun t => (r.1.model_update_rate_, r.2 + 1, r.1.update_flag_, t.update_flag_,
          t.sample_size_)))
      = .done (2, 1, false, true, 4) := by
  decide

/-- C6, amended. Let the update rate T be at least 1 and the counter start at 0.
After any sequence of events that runs to completion, a valid measurement is
processed (the location log having at least two columns and the counter staying
within `int`), and it leaves the retrain flag set exactly when the flag was set
before or the number of valid measurements received since the start, this one
included, is a multiple of T. Over the whole sequence the flag is the one that
`flagAfter` describes: set only by such a measurement, cleared only by `Update`.
An `Update` call, on any state `s`, retrains (trains on the two logs and refreshes
the prediction) exactly when it finds the flag set, leaves the flag cleared, and
leaves the counter as it was. -/
theorem retrain_flag_follows_total_count (ext : Externals α GP V IS)
    (s0 : SamplingCore α GP V IS) (es : List (Event α)) (msg : measurement α)
    (s : SamplingCore α GP V IS)
    (hT : 1 ≤ s0.model_update_rate_) (h0 : s0.sample_size_ = 0)
    (hcols : 2 ≤ s0.collected_locations_.cols) (hvalid : msg.valid = true)
    (hsize : (validCount es : Int) < INT_MAX) :
    (run ext s0 (es ++ [.sample msg])).image (fun t => (t.update_flag_, t.sample_size_))
      = (run ext s0 es).image (fun s =>
          (s.update_flag_
            || decide (((validCount es : Int) + 1) % s0.model_update_rate_ = 0),
           (validCount es : Int) + 1))
    ∧ (run ext s0 es).image (fun t => t.update_flag_)
      = (run ext s0 es).image
          (fun _ => flagAfter s0.model_update_rate_ s0.update_flag_ 0 es)
    ∧ (Update ext s).image
        (fun r => (r.1.update_flag_, r.1.sample_size_, r.1.model_, r.1.mean_prediction_,
          r.1.var_prediction_))
      = (Update ext s).image (fun _ =>
          (false, s.sample_size_,
           if s.update_flag_ then
             ext.Train s.model_ (MatrixXd.ofVectorXd s.collected_temperatures_)
               s.collected_locations_
           else s.model_,
           if s.update_flag_ then
             (ext.Predict (ext.Train s.model_ (MatrixXd.ofVectorXd s.collected_temperatures_)
               s.collected_locations_) s.location_).1
           else s.mean_prediction_,
           if s.update_flag_ then
             (ext.Predict (ext.Train s.model_ (MatrixXd.ofVectorXd s.collected_temperatures_)
               s.collected_locations_) s.location_).2
           else s.var_prediction_)) := by
  refine ⟨?_, ?_, ?_⟩
  · rw [run_append]
    cases hrun : run ext s0 es with
    | undefined w => rfl
    | done s =>
      obtain ⟨hr, hc, hs⟩ := run_done_inv ext es s0 s hrun
      rw [h0, Int.zero_add] at hs
      have hnonneg : 0 ≤ s.sample_size_ := by rw [hs]; exact Int.natCast_nonneg _
      obtain ⟨t, ht, hsz, hflag, _⟩ := CollectSampleCallback_valid_fields ext s msg hvalid
        hnonneg (by rw [hs]; exact hsize) (by rw [hr]; omega) (by rw [hc]; exact hcols)
      have htmod : Int.tmod (s.sample_size_ + 1) s.model_update_rate_
          = ((validCount es : Int) + 1) % s0.model_update_rate_ := by
        rw [hs, hr]
        exact Int.tmod_eq_emod (by omega) (by omega)
      simp only [Outcome.bind, run_cons, step, ht, run, Outcome.image]
      rw [hflag, hsz, htmod, hs, Bool.or_comm]
  · cases hrun : run ext s0 es with
    | undefined w => rfl
    | done t =>
      have := run_done_flag ext es s0 t hrun hT (by rw [h0])
      rw [h0] at this
      simp only [Outcome.image, this]
  · rw [Update_flag_model ext s]

/-- Witness of `retrain_flag_follows_total_count`: update rate 2, three valid
measurements and an `Update`, then a valid measurement; and an `Update` on the
state in which a retrain is due, which clears the flag and trains on the logs. -/
theorem retrain_flag_follows_total_count_witness :
    ((run Concrete.ext Concrete.ready
        ([.sample Concrete.validSample, .sample Concrete.validSample,
          .sample Concrete.validSample, .update] ++ [.sample Concrete.validSample])).image
        (fun t => (t.update_flag_, t.sample_size_))
      = (run Concrete.ext Concrete.ready
          [.sample Concrete.validSample, .sample Concrete.validSample,
            .sample Concrete.validSample, .update]).image (fun s =>
          (s.update_flag_
            || decide (((validCount [Event.sample Concrete.validSample,
                  .sample Concrete.validSample, .sample Concrete.validSample,
                  .update] : Int) + 1) % Concrete.ready.model_update_rate_ = 0),
           (validCount [Event.sample Concrete.validSample,
              .sample Concrete.validSample, .sample Concrete.validSample,
              .update] : Int) + 1))
    ∧ (run Concrete.ext Concrete.ready
          [.sample Concrete.validSample, .sample Concrete.validSample,
            .sample Concrete.validSample, .update]).image (fun t => t.update_flag_)
      = (run Concrete.ext Concrete.ready
          [.sample Concrete.validSample, .sample Concrete.validSample,
            .sample Concrete.validSample, .update]).image
          (fun _ => flagAfter Concrete.ready.model_update_rate_ Concrete.ready.update_flag_ 0
            [Event.sample Concrete.validSample, .sample Concrete.validSample,
              .sample Concrete.validSample, .update])
    ∧ (Update Concrete.ext Concrete.retrainDue).image
        (fun r => (r.1.update_flag_, r.1.sample_size_, r.1.model_, r.1.mean_prediction_,
          r.1.var_prediction_))
      = (Update Concrete.ext Concrete.retrainDue).image (fun _ =>
          (false, Concrete.retrainDue.sample_size_,
           if Concrete.retrainDue.update_flag_ then
             Concrete.ext.Train Concrete.retrainDue.model_
               (MatrixXd.ofVectorXd Concrete.retrainDue.collected_temperatures_)
               Concrete.retrainDue.collected_locations_
           else Concrete.retrainDue.model_,
           if Concrete.retrainDue.update_flag_ then
             (Concrete.ext.Predict (Concrete.ext.Train Concrete.retrainDue.model_
               (MatrixXd.ofVectorXd Concrete.retrainDue.collected_temperatures_)
               Concrete.retrainDue.collected_locations_) Concrete.retrainDue.location_).1
           else Concrete.retrainDue.mean_prediction_,
           if Concrete.retrainDue.update_flag_ then
             (Concrete.ext.Predict (Concrete.ext.Train Concrete.retrainDue.model_
               (MatrixXd.ofVectorXd Concrete.retrainDue.collected_temperatures_)
               Concrete.retrainDue.collected_locations_) Concrete.retrainDue.location_).2
           else Concrete.retrainDue.var_prediction_)))
    ∧ (Update Concrete.ext Concrete.retrainDue).image
        (fun r => (r.1.update_flag_, r.1.sample_size_, r.1.model_, r.1.mean_prediction_,
          r.1.var_prediction_))
      = .done (false, 0, [((⟨1, []⟩ : MatrixXd ℤ), (⟨2, []⟩ : MatrixXd ℤ))],
          [0, 0, 0, 0], [0, 1, 2, 3]) :=
  ⟨retrain_flag_follows_total_count Concrete.ext Concrete.ready
    [.sample Concrete.validSample, .sample Concrete.validSample,
      .sample Concrete.validSample, .update] Concrete.validSample Concrete.retrainDue
    (by decide) (by decide) (by decide) (by decide) (by decide), by rfl⟩

end RetrainClaims

section RMS

/-- The accumulation loop of `RMSError` adds the terms to the starting value. -/
theorem foldl_add_eq_sum (f : Nat → ℝ) (n : Nat) (init : ℝ) :
    (List.range n).foldl (fun acc i => acc + f i) init
      = init + ((List.range n).map f).sum := by
  induction n with
  | zero => simp
  | succ n ih =>
    rw [List.range_succ, List.foldl_append, ih]
    simp [add_assoc]

/-- Reading both vectors index by index gives the pairwise list. -/
theorem map_range_getD_eq_zipWith (g : ℝ → ℝ → ℝ) (val1 val2 : List ℝ)
    (hlen : val1.length = val2.length) :
    (List.range val1.length).map (fun i => g (val1.getD i 0) (val2.getD i 0))
      = List.zipWith g val1 val2 := by
  apply List.ext_getElem
  · simp [hlen]
  · intro i h1 h2
    simp only [List.length_map, List.length_range] at h1
    have h3 : i < val2.length := hlen ▸ h1
    simp [List.getD_eq_getElem, h1, h3]

/-- C7. For real vectors of equal length n ≥ 1, `RMSError` is the square root of
the sum of the squared differences divided by n; and `RMSError([1,2,3], [1,2,4])`
is `sqrt(1/3)`, which lies between 0.577 and 0.578. -/
theorem RMSError_eq_sqrt_mean_square (val1 val2 : List ℝ)
    (hlen : val1.length = val2.length) (_hpos : 1 ≤ val1.length) :
    RMSError Real.sqrt val1 val2
        = Real.sqrt ((List.zipWith (fun a b => (a - b) ^ 2) val1 val2).sum / val1.length)
    ∧ RMSError Real.sqrt [1, 2, 3] [1, 2, 4] = Real.sqrt (1 / 3)
    ∧ (0.577 : ℝ) < RMSError Real.sqrt [1, 2, 3] [1, 2, 4]
    ∧ RMSError Real.sqrt [1, 2, 3] [1, 2, 4] < (0.578 : ℝ) := by
  have general : ∀ (v1 v2 : List ℝ), v1.length = v2.length →
      RMSError Real.sqrt v1 v2
        = Real.sqrt ((List.zipWith (fun a b => (a - b) ^ 2) v1 v2).sum / v1.length) := by
    intro v1 v2 h
    unfold RMSError
    simp only [h, ne_eq, not_true_eq_false, if_false]
    rw [← h, foldl_add_eq_sum
      (fun i => (v1.getD i 0 - v2.getD i 0) * (v1.getD i 0 - v2.getD i 0)) v1.length 0,
      map_range_getD_eq_zipWith (fun a b => (a - b) * (a - b)) v1 v2 h, zero_add]
    have hsq : (fun a b : ℝ => (a - b) * (a - b)) = (fun a b => (a - b) ^ 2) := by
      funext a b
      ring
    rw [hsq]
  have concrete : RMSError Real.sqrt [1, 2, 3] [1, 2, 4] = Real.sqrt (1 / 3) := by
    rw [general [1, 2, 3] [1, 2, 4] rfl]
    norm_num
  refine ⟨general val1 val2 hlen, concrete, ?_, ?_⟩
  · rw [concrete, Real.lt_sqrt (by norm_num)]
    norm_num
  · rw [concrete, Real.sqrt_lt' (by norm_num)]
    norm_num

/-- Witness of `RMSError_eq_sqrt_mean_square`: the vectors [1, 2, 3] and
[1, 2, 4]. -/
theorem RMSError_eq_sqrt_mean_square_witness :
    RMSError Real.sqrt [1, 2, 3] [1, 2, 4]
        = Real.sqrt ((List.zipWith (fun a b => (a - b) ^ 2) [1, 2, 3] [1, 2, 4]).sum
            / ([1, 2, 3] : List ℝ).length)
    ∧ RMSError Real.sqrt [1, 2, 3] [1, 2, 4] = Real.sqrt (1 / 3)
    ∧ (0.577 : ℝ) < RMSError Real.sqrt [1, 2, 3] [1, 2, 4]
    ∧ RMSError Real.sqrt [1, 2, 3] [1, 2, 4] < (0.578 : ℝ) :=
  RMSError_eq_sqrt_mean_square [1, 2, 3] [1, 2, 4] rfl (by decide)

end RMS

section InitClaims

variable {α GP V IS : Type}

/-- C8 (the code departs from the claim). Whenever `Init` returns `true`, the
object it leaves has empty prediction vectors: `Init` trains `model_` but never
calls `Predict` on it. On the concrete parameters (a grid of N = 4 points, two
initial samples) `Init` returns `true`, the model has been trained once and
`mean_prediction_` and `var_prediction_` have length 0. -/
theorem Init_leaves_prediction_vectors_empty (ext : Externals α GP V IS)
    (indet : Indeterminate α) (rh : RosParam α) :
    (Init ext indet rh).image
        (Option.map (fun s => (s.mean_prediction_, s.var_prediction_)))
      = (Init ext indet rh).image
        (Option.map (fun _ => (([] : VectorXd α), ([] : VectorXd α))))
    ∧ (Init Concrete.ext Concrete.indeterminate Concrete.rosParam).image
        (Option.map (fun s => (s.location_.rows, s.mean_prediction_.length,
          s.var_prediction_.length, s.model_)))
      = .done (some (4, 0, 0,
          [((⟨1, [[20], [21]]⟩ : MatrixXd ℤ), (⟨1, [[20], [21]]⟩ : MatrixXd ℤ))])) := by
  refine ⟨?_, by rfl⟩
  unfold Init
  cases hparse : ParseFromRosParam indet rh with
  | undefined w => rfl
  | done o =>
    cases o with
    | none => rfl
    | some p =>
      cases hvis : InitializeVisualization p with
      | undefined w => simp [Outcome.bind_done, Outcome.bind_undefined, hvis, Outcome.image]
      | done nodes =>
        by_cases hgt : p.ground_truth_temperature_.rows > 0
        · cases hmodel : p.gt_gp_hyperparams_.isEmpty <;>
            simp [Outcome.bind_done, Outcome.bind_undefined, hvis, Outcome.image, hgt,
              hmodel, Outcome.pure_eq]
        · simp [Outcome.bind_done, Outcome.bind_undefined, hvis, Outcome.image, hgt,
            Outcome.pure_eq]

end InitClaims

section GroundTruth

variable {α GP V IS : Type}

/-- The response to a request does not read the ground-truth data. -/
theorem AssignInterestPoint_eraseGroundTruth (ext : Externals α GP V IS)
    (s : SamplingCore α GP V IS) (req : Request) :
    (AssignInterestPoint ext (eraseGroundTruth s) req).image (fun r => r.2)
      = (AssignInterestPoint ext s req).image (fun r => r.2) := by
  unfold AssignInterestPoint eraseGroundTruth
  cases hA : s.Jackal_latitude_ <;> cases hB : s.Jackal_longitude_ <;>
    cases hC : s.Pelican_latitude_ <;> cases hD : s.Pelican_longitude_ <;>
    simp [hA, hB, hC, hD, optionalGet, Outcome.image, Outcome.bind_done,
      Outcome.bind_undefined, Outcome.pure_eq]

variable [Zero α] [Add α] [Sub α] [Mul α] [Div α] [NatCast α]

/-- `Update`, in closed form. -/
theorem Update_eq (ext : Externals α GP V IS) (s : SamplingCore α GP V IS) :
    Update ext s =
      if "mean" ∈ s.visualization_node_ ∧ "variance" ∈ s.visualization_node_ then
        if s.update_flag_ then
          .done (UpdateModel ext { s with update_flag_ := false },
            some (RMSError ext.sqrt s.gt_mean_
              (UpdateModel ext { s with update_flag_ := false }).mean_prediction_))
        else .done (s, none)
      else .undefined .null_dereference := by
  unfold Update
  by_cases hf : s.update_flag_ = true <;>
    by_cases hm : "mean" ∈ s.visualization_node_ <;>
    by_cases hv : "variance" ∈ s.visualization_node_ <;>
    simp [hf, hm, hv, UpdateVisualization, UpdateModel, Outcome.bind_done,
      Outcome.bind_undefined, Outcome.pure_eq]

/-- The non-ground-truth part of the object after `Update` is computed from the
non-ground-truth part of the object before. -/
theorem Update_eraseGroundTruth (ext : Externals α GP V IS) (s : SamplingCore α GP V IS) :
    (Update ext s).image (fun r => eraseGroundTruth r.1)
      = (Update ext (eraseGroundTruth s)).image (fun r => eraseGroundTruth r.1) := by
  rw [Update_eq, Update_eq]
  by_cases hf : s.update_flag_ = true <;>
    by_cases hm : "mean" ∈ s.visualization_node_ <;>
    by_cases hv : "variance" ∈ s.visualization_node_ <;>
    simp [hf, hm, hv, eraseGroundTruth, UpdateModel, Outcome.image]

/-- C9. Two states that differ only in the ground-truth data (`gt_mean_`,
`gt_var_`, `gt_model_`) are taken by `Update` to states that again differ only in
the ground-truth data, so the refreshed predictions, the measurement log, the
counters and the agent positions agree; a request served afterwards gets the same
answer on both; and the RMS value is stored nowhere: `Update` leaves the
ground-truth fields as they were, and the object it leaves does not depend on the
square-root function that the RMS value is computed with. -/
theorem Update_independent_of_ground_truth (ext : Externals α GP V IS)
    (s t : SamplingCore α GP V IS) (req : Request) (f : α → α)
    (hsame : eraseGroundTruth s = eraseGroundTruth t) :
    (Update ext s).image (fun r => eraseGroundTruth r.1)
        = (Update ext t).image (fun r => eraseGroundTruth r.1)
    ∧ (Update ext s).image (fun r =>
          (r.1.mean_prediction_, r.1.var_prediction_, r.1.collected_temperatures_,
            r.1.collected_locations_, r.1.sample_size_, r.1.update_flag_,
            r.1.Jackal_latitude_, r.1.Jackal_longitude_, r.1.Pelican_latitude_,
            r.1.Pelican_longitude_))
        = (Update ext t).image (fun r =>
          (r.1.mean_prediction_, r.1.var_prediction_, r.1.collected_temperatures_,
            r.1.collected_locations_, r.1.sample_size_, r.1.update_flag_,
            r.1.Jackal_latitude_, r.1.Jackal_longitude_, r.1.Pelican_latitude_,
            r.1.Pelican_longitude_))
    ∧ ((Update ext s).bind (fun r => AssignInterestPoint ext r.1 req)).image (fun r => r.2)
        = ((Update ext t).bind (fun r => AssignInterestPoint ext r.1 req)).image
            (fun r => r.2)
    ∧ (Update ext s).image (fun r => (r.1.gt_mean_, r.1.gt_var_, r.1.gt_model_))
        = (Update ext s).image (fun _ => (s.gt_mean_, s.gt_var_, s.gt_model_))
    ∧ (Update { ext with sqrt := f } s).image Prod.fst = (Update ext s).image Prod.fst := by
  have key : (Update ext s).image (fun r => eraseGroundTruth r.1)
      = (Update ext t).image (fun r => eraseGroundTruth r.1) := by
    rw [Update_eraseGroundTruth ext s, Update_eraseGroundTruth ext t, hsame]
  refine ⟨key, ?_, ?_, ?_, ?_⟩
  · cases hs : Update ext s with
    | undefined w =>
      cases ht : Update ext t with
      | undefined w2 => rw [hs, ht] at key; simpa [Outcome.image] using key
      | done r2 => rw [hs, ht] at key; simp [Outcome.image] at key
    | done r1 =>
      cases ht : Update ext t with
      | undefined w2 => rw [hs, ht] at key; simp [Outcome.image] at key
      | done r2 =>
        rw [hs, ht] at key
        simp only [Outcome.image, Outcome.done.injEq] at key ⊢
        have h := congrArg (fun u : SamplingCore α GP V IS =>
          (u.mean_prediction_, u.var_prediction_, u.collected_temperatures_,
            u.collected_locations_, u.sample_size_, u.update_flag_,
            u.Jackal_latitude_, u.Jackal_longitude_, u.Pelican_latitude_,
            u.Pelican_longitude_)) key
        exact h
  · cases hs : Update ext s with
    | undefined w =>
      cases ht : Update ext t with
      | undefined w2 => rw [hs, ht] at key; simpa [Outcome.image, Outcome.bind] using key
      | done r2 => rw [hs, ht] at key; simp [Outcome.image] at key
    | done r1 =>
      cases ht : Update ext t with
      | undefined w2 => rw [hs, ht] at key; simp [Outcome.image] at key
      | done r2 =>
        rw [hs, ht] at key
        simp only [Outcome.image, Outcome.done.injEq] at key
        simp only [Outcome.bind]
        rw [← AssignInterestPoint_eraseGroundTruth ext r1.1 req,
          ← AssignInterestPoint_eraseGroundTruth ext r2.1 req, key]
  · rw [Update_eq]
    by_cases hf : s.update_flag_ = true <;>
      by_cases hm : "mean" ∈ s.visualization_node_ <;>
      by_cases hv : "variance" ∈ s.visualization_node_ <;>
      simp [hf, hm, hv, UpdateModel, Outcome.image]
  · rw [Update_eq, Update_eq]
    by_cases hf : s.update_flag_ = true <;>
      by_cases hm : "mean" ∈ s.visualization_node_ <;>
      by_cases hv : "variance" ∈ s.visualization_node_ <;>
      simp [hf, hm, hv, UpdateModel, Outcome.image]

end GroundTruth

section GroundTruthWitness

/-- Witness of `Update_independent_of_ground_truth`: a state in which a retrain is
due, without and with ground-truth data, followed by a request of the Jackal. -/
theorem Update_independent_of_ground_truth_witness :
    eraseGroundTruth Concrete.retrainDue = eraseGroundTruth Concrete.retrainDueWithTruth
    ∧ (Update Concrete.ext Concrete.retrainDue).image (fun r => eraseGroundTruth r.1)
        = (Update Concrete.ext Concrete.retrainDueWithTruth).image
            (fun r => eraseGroundTruth r.1)
    ∧ ((Update Concrete.ext Concrete.retrainDue).bind
          (fun r => AssignInterestPoint Concrete.ext r.1 ⟨"Jackal"⟩)).image (fun r => r.2)
        = ((Update Concrete.ext Concrete.retrainDueWithTruth).bind
          (fun r => AssignInterestPoint Concrete.ext r.1 ⟨"Jackal"⟩)).image (fun r => r.2) :=
  have h := Update_independent_of_ground_truth Concrete.ext Concrete.retrainDue
    Concrete.retrainDueWithTruth ⟨"Jackal"⟩ id rfl
  ⟨rfl, h.1, h.2.2.1⟩

end GroundTruthWitness

section Assignment

variable {α GP V IS : Type}

/-- A key that the agent table holds keeps its value when the table is indexed
with any key. -/
theorem lookup_mapIndex {m : List (String × Int)} {key : String} {v : Int}
    (h : m.lookup key = some v) (other : String) :
    (mapIndex m other).2.lookup key = some v := by
  unfold mapIndex
  cases ho : m.lookup other with
  | some w => simpa using h
  | none => simp [List.lookup_append, h]

/-- A completed `CollectSampleCallback` leaves the agent table as it was. -/
theorem CollectSampleCallback_done_agent_id [Mul α] (ext : Externals α GP V IS)
    (s t : SamplingCore α GP V IS) (msg : measurement α)
    (h : CollectSampleCallback ext s msg = .done t) :
    t.agent_id_ = s.agent_id_ := by
  cases hv : msg.valid with
  | false =>
    simp [CollectSampleCallback, hv, Outcome.pure_eq] at h
    subst h
    rfl
  | true =>
    by_cases hlt : s.sample_size_ < INT_MAX
    · by_cases hr : s.model_update_rate_ = 0
          ∨ (s.sample_size_ + 1 = INT_MIN ∧ s.model_update_rate_ = -1)
      · simp [CollectSampleCallback, hv, intIncrement, hlt, intRemainder, hr,
          Outcome.bind_done, Outcome.bind_undefined] at h
      · by_cases h0 : 0 < s.collected_locations_.cols
        · by_cases h1 : 1 < s.collected_locations_.cols
          · simp [CollectSampleCallback, hv, intIncrement, hlt, intRemainder, hr,
              MsgToMatrix, MatrixXd.coeff, MatrixXd.setCoeff, vectorSet,
              MatrixXd.conservativeResizeAddRow, MatrixXd.rows, Outcome.bind_done,
              Outcome.pure_eq, h0, h1] at h
            subst h
            rfl
          · simp [CollectSampleCallback, hv, intIncrement, hlt, intRemainder, hr,
              MsgToMatrix, MatrixXd.coeff, MatrixXd.setCoeff, vectorSet,
              MatrixXd.conservativeResizeAddRow, MatrixXd.rows, Outcome.bind_done,
              Outcome.bind_undefined, Outcome.pure_eq, h0, h1] at h
        · simp [CollectSampleCallback, hv, intIncrement, hlt, intRemainder, hr,
              MsgToMatrix, MatrixXd.coeff, MatrixXd.setCoeff, vectorSet,
              MatrixXd.conservativeResizeAddRow, MatrixXd.rows, Outcome.bind_done,
              Outcome.bind_undefined, Outcome.pure_eq, h0] at h
    · simp [CollectSampleCallback, hv, intIncrement, hlt, Outcome.bind_undefined] at h

/-- The agent table that `Init` builds holds Jackal with id 0 and Pelican with
id 1. -/
theorem Init_agent_id (ext : Externals α GP V IS) (indet : Indeterminate α) (rh : RosParam α) :
    (Init ext indet rh).image (Option.map (fun t => t.agent_id_))
      = (Init ext indet rh).image (Option.map (fun _ => [("Jackal", 0), ("Pelican", 1)])) := by
  unfold Init
  cases hparse : ParseFromRosParam indet rh with
  | undefined w => rfl
  | done o =>
    cases o with
    | none => rfl
    | some p =>
      cases hvis : InitializeVisualization p with
      | undefined w => simp [Outcome.bind_done, Outcome.bind_undefined, hvis, Outcome.image]
      | done nodes =>
        by_cases hgt : p.ground_truth_temperature_.rows > 0
        · cases hmodel : p.gt_gp_hyperparams_.isEmpty <;>
            simp [Outcome.bind_done, Outcome.bind_undefined, hvis, Outcome.image, hgt,
              hmodel, Outcome.pure_eq, mapAssign]
        · simp [Outcome.bind_done, Outcome.bind_undefined, hvis, Outcome.image, hgt,
            Outcome.pure_eq, mapAssign]

/-- The response to a request whose `robot_id` the agent table maps to `id`, with
both positions known. -/
theorem AssignInterestPoint_of_lookup (ext : Externals α GP V IS)
    (s : SamplingCore α GP V IS) (req : Request) (a b c d : α) (id : Int)
    (hJlat : s.Jackal_latitude_ = some a) (hJlon : s.Jackal_longitude_ = some b)
    (hPlat : s.Pelican_latitude_ = some c) (hPlon : s.Pelican_longitude_ = some d)
    (hid : s.agent_id_.lookup req.robot_id = some id) :
    AssignInterestPoint ext s req =
      .done (s, true,
        { latitude := (ext.SelectInformativeLocation s.informative_sampling_node_
            s.mean_prediction_ s.var_prediction_
            (ext.GetSingleVoronoiCellIndex s.voronoi_node_ ⟨2, [[a, b], [c, d]]⟩ id)).1
          longitude := (ext.SelectInformativeLocation s.informative_sampling_node_
            s.mean_prediction_ s.var_prediction_
            (ext.GetSingleVoronoiCellIndex s.voronoi_node_ ⟨2, [[a, b], [c, d]]⟩ id)).2 }) := by
  simp [AssignInterestPoint, mapIndex_of_lookup hid, hJlat, hJlon, hPlat, hPlon,
    optionalGet, agentLocations, Outcome.bind_done, Outcome.pure_eq]
  rw [← hJlat, ← hJlon, ← hPlat, ← hPlon]

variable [Zero α] [Add α] [Sub α] [Mul α] [Div α] [NatCast α]

/-- A completed `Update` leaves the agent table as it was. -/
theorem Update_done_agent_id (ext : Externals α GP V IS) (s t : SamplingCore α GP V IS)
    (h : (Update ext s).image Prod.fst = .done t) : t.agent_id_ = s.agent_id_ := by
  unfold Update at h
  by_cases hf : s.update_flag_ = true <;>
    by_cases hm : "mean" ∈ s.visualization_node_ <;>
    by_cases hv : "variance" ∈ s.visualization_node_ <;>
    simp [hf, hm, hv, UpdateVisualization, UpdateModel, Outcome.image, Outcome.bind_done,
      Outcome.bind_undefined, Outcome.pure_eq] at h <;>
    (subst h; rfl)

/-- A completed event keeps the value of every key of the agent table. -/
theorem step_done_lookup (ext : Externals α GP V IS) (s t : SamplingCore α GP V IS)
    (e : Event α) (h : step ext s e = .done t) (key : String) (v : Int)
    (hk : s.agent_id_.lookup key = some v) : t.agent_id_.lookup key = some v := by
  cases e with
  | sample msg => rw [CollectSampleCallback_done_agent_id ext s t msg h]; exact hk
  | jackalGPS msg =>
    simp only [step, JackalGPSCallback] at h
    split at h
    · cases h; exact hk
    · cases h
  | pelicanGPS msg =>
    simp only [step, PelicanGPSCallback] at h
    split at h
    · cases h; exact hk
    · cases h
  | update => rw [Update_done_agent_id ext s t h]; exact hk
  | request req =>
    have := AssignInterestPoint_done_inv ext s t req h
    subst this
    exact lookup_mapIndex hk req.robot_id

/-- A completed run keeps the value of every key of the agent table. -/
theorem run_done_lookup (ext : Externals α GP V IS) (es : List (Event α)) :
    ∀ (s t : SamplingCore α GP V IS), run ext s es = .done t →
      ∀ (key : String) (v : Int), s.agent_id_.lookup key = some v →
        t.agent_id_.lookup key = some v := by
  induction es with
  | nil => intro s t h key v hk; cases h; exact hk
  | cons e es ih =>
    intro s t h key v hk
    rw [run_cons] at h
    cases hstep : step ext s e with
    | undefined w => rw [hstep] at h; cases h
    | done u =>
      rw [hstep] at h
      exact ih u t h key v (step_done_lookup ext s u e hstep key v hk)


/-- C10. `Init` registers the Jackal with id 0 and the Pelican with id 1, and no
event changes these two entries, so they hold in every state reached from `Init`.
In such a state, with both positions known, a request of the Jackal is answered
with `SelectInformativeLocation(mean_prediction_, var_prediction_, cell)` for
`cell = GetSingleVoronoiCellIndex(P, 0)` and a request of the Pelican with the same
for `cell = GetSingleVoronoiCellIndex(P, 1)`, where row 0 of `P` is the position of
the Jackal and row 1 the position of the Pelican: row i of `P` is the position of
the agent with id i, and each agent is served from its own cell. The request
returns `true` and leaves the object unchanged. -/
theorem AssignInterestPoint_selects_in_own_cell (ext : Externals α GP V IS)
    (indet : Indeterminate α) (rh : RosParam α) (s : SamplingCore α GP V IS)
    (es : List (Event α)) (a b c d : α)
    (hJlat : s.Jackal_latitude_ = some a) (hJlon : s.Jackal_longitude_ = some b)
    (hPlat : s.Pelican_latitude_ = some c) (hPlon : s.Pelican_longitude_ = some d)
    (hJackal : s.agent_id_.lookup "Jackal" = some 0)
    (hPelican : s.agent_id_.lookup "Pelican" = some 1) :
    AssignInterestPoint ext s ⟨"Jackal"⟩ =
      .done (s, true,
        { latitude := (ext.SelectInformativeLocation s.informative_sampling_node_
            s.mean_prediction_ s.var_prediction_
            (ext.GetSingleVoronoiCellIndex s.voronoi_node_ ⟨2, [[a, b], [c, d]]⟩ 0)).1
          longitude := (ext.SelectInformativeLocation s.informative_sampling_node_
            s.mean_prediction_ s.var_prediction_
            (ext.GetSingleVoronoiCellIndex s.voronoi_node_ ⟨2, [[a, b], [c, d]]⟩ 0)).2 })
    ∧ AssignInterestPoint ext s ⟨"Pelican"⟩ =
      .done (s, true,
        { latitude := (ext.SelectInformativeLocation s.informative_sampling_node_
            s.mean_prediction_ s.var_prediction_
            (ext.GetSingleVoronoiCellIndex s.voronoi_node_ ⟨2, [[a, b], [c, d]]⟩ 1)).1
          longitude := (ext.SelectInformativeLocation s.informative_sampling_node_
            s.mean_prediction_ s.var_prediction_
            (ext.GetSingleVoronoiCellIndex s.voronoi_node_ ⟨2, [[a, b], [c, d]]⟩ 1)).2 })
    ∧ (Init ext indet rh).image (Option.map (fun t => t.agent_id_))
        = (Init ext indet rh).image (Option.map (fun _ => [("Jackal", 0), ("Pelican", 1)]))
    ∧ (run ext s es).image
          (fun t => (t.agent_id_.lookup "Jackal", t.agent_id_.lookup "Pelican"))
        = (run ext s es).image (fun _ => (some 0, some 1))
    ∧ (Init ext indet rh).bind (fun o => match o with
          | none => .done none
          | some s0 => (run ext s0 es).image
              (fun t => some (t.agent_id_.lookup "Jackal", t.agent_id_.lookup "Pelican")))
        = (Init ext indet rh).bind (fun o => match o with
          | none => .done none
          | some s0 => (run ext s0 es).image (fun _ => some (some (0 : Int), some (1 : Int)))) := by
  refine ⟨AssignInterestPoint_of_lookup ext s ⟨"Jackal"⟩ a b c d 0 hJlat hJlon hPlat hPlon
      hJackal,
    AssignInterestPoint_of_lookup ext s ⟨"Pelican"⟩ a b c d 1 hJlat hJlon hPlat hPlon
      hPelican,
    Init_agent_id ext indet rh, ?_, ?_⟩
  · cases hrun : run ext s es with
    | undefined w => rfl
    | done t =>
      simp only [Outcome.image]
      rw [run_done_lookup ext es s t hrun "Jackal" 0 hJackal,
        run_done_lookup ext es s t hrun "Pelican" 1 hPelican]
  · have htable := Init_agent_id ext indet rh
    cases hinit : Init ext indet rh with
    | undefined w => rfl
    | done o =>
      cases o with
      | none => rfl
      | some s0 =>
        rw [hinit] at htable
        simp only [Outcome.image, Option.map_some', Outcome.done.injEq,
          Option.some.injEq] at htable
        simp only [Outcome.bind]
        cases hrun : run ext s0 es with
        | undefined w => rfl
        | done t =>
          simp only [Outcome.image]
          rw [run_done_lookup ext es s0 t hrun "Jackal" 0 (by rw [htable]; rfl),
            run_done_lookup ext es s0 t hrun "Pelican" 1 (by rw [htable]; rfl)]

/-- Witness of `AssignInterestPoint_selects_in_own_cell`: Jackal at (0, 0), Pelican
at (4, 0) on the grid of four points, where the cell of the Jackal is the points
0, 1, 2 and the cell of the Pelican the point 3; the Jackal is sent to (2, 0), the
Pelican to (3, 0); a request of an unregistered robot and a measurement leave the
two entries of the table in place. -/
theorem AssignInterestPoint_selects_in_own_cell_witness :
    (AssignInterestPoint Concrete.ext Concrete.bothKnown ⟨"Jackal"⟩ =
      .done (Concrete.bothKnown, true,
        { latitude := (Concrete.ext.SelectInformativeLocation Concrete.bothKnown.informative_sampling_node_
            Concrete.bothKnown.mean_prediction_ Concrete.bothKnown.var_prediction_
            (Concrete.ext.GetSingleVoronoiCellIndex Concrete.bothKnown.voronoi_node_ ⟨2, [[0, 0], [4, 0]]⟩ 0)).1
          longitude := (Concrete.ext.SelectInformativeLocation Concrete.bothKnown.informative_sampling_node_
            Concrete.bothKnown.mean_prediction_ Concrete.bothKnown.var_prediction_
            (Concrete.ext.GetSingleVoronoiCellIndex Concrete.bothKnown.voronoi_node_ ⟨2, [[0, 0], [4, 0]]⟩ 0)).2 })
    ∧ AssignInterestPoint Concrete.ext Concrete.bothKnown ⟨"Pelican"⟩ =
      .done (Concrete.bothKnown, true,
        { latitude := (Concrete.ext.SelectInformativeLocation Concrete.bothKnown.informative_sampling_node_
            Concrete.bothKnown.mean_prediction_ Concrete.bothKnown.var_prediction_
            (Concrete.ext.GetSingleVoronoiCellIndex Concrete.bothKnown.voronoi_node_ ⟨2, [[0, 0], [4, 0]]⟩ 1)).1
          longitude := (Concrete.ext.SelectInformativeLocation Concrete.bothKnown.informative_sampling_node_
            Concrete.bothKnown.mean_prediction_ Concrete.bothKnown.var_prediction_
            (Concrete.ext.GetSingleVoronoiCellIndex Concrete.bothKnown.voronoi_node_ ⟨2, [[0, 0], [4, 0]]⟩ 1)).2 })
    ∧ (Init Concrete.ext Concrete.indeterminate Concrete.rosParam).image
          (Option.map (fun t => t.agent_id_))
        = (Init Concrete.ext Concrete.indeterminate Concrete.rosParam).image
          (Option.map (fun _ => [("Jackal", 0), ("Pelican", 1)]))
    ∧ (run Concrete.ext Concrete.bothKnown
          [.request ⟨"Husky"⟩, .sample Concrete.validSample]).image
          (fun t => (t.agent_id_.lookup "Jackal", t.agent_id_.lookup "Pelican"))
        = (run Concrete.ext Concrete.bothKnown
          [.request ⟨"Husky"⟩, .sample Concrete.validSample]).image
          (fun _ => (some 0, some 1))
    ∧ (Init Concrete.ext Concrete.indeterminate Concrete.rosParam).bind
          (fun o => match o with
          | none => .done none
          | some s0 => (run Concrete.ext s0
              [.request ⟨"Husky"⟩, .sample Concrete.validSample]).image
              (fun t => some (t.agent_id_.lookup "Jackal", t.agent_id_.lookup "Pelican")))
        = (Init Concrete.ext Concrete.indeterminate Concrete.rosParam).bind
          (fun o => match o with
          | none => .done none
          | some s0 => (run Concrete.ext s0
              [.request ⟨"Husky"⟩, .sample Concrete.validSample]).image
              (fun _ => some (some (0 : Int), some (1 : Int)))))
    ∧ Concrete.ext.GetSingleVoronoiCellIndex Concrete.bothKnown.voronoi_node_
        ⟨2, [[0, 0], [4, 0]]⟩ 0 = [0, 1, 2]
    ∧ Concrete.ext.GetSingleVoronoiCellIndex Concrete.bothKnown.voronoi_node_
        ⟨2, [[0, 0], [4, 0]]⟩ 1 = [3]
    ∧ (AssignInterestPoint Concrete.ext Concrete.bothKnown ⟨"Jackal"⟩).image
        (fun r => r.2.2) = .done ⟨2, 0⟩
    ∧ (AssignInterestPoint Concrete.ext Concrete.bothKnown ⟨"Pelican"⟩).image
        (fun r => r.2.2) = .done ⟨3, 0⟩
    ∧ (Init Concrete.ext Concrete.indeterminate Concrete.rosParam).image
          (Option.map (fun t => t.agent_id_))
        = .done (some [("Jackal", 0), ("Pelican", 1)]) :=
  ⟨AssignInterestPoint_selects_in_own_cell Concrete.ext Concrete.indeterminate
      Concrete.rosParam Concrete.bothKnown
      [.request ⟨"Husky"⟩, .sample Concrete.validSample] 0 0 4 0 rfl rfl rfl rfl
      (by decide) (by decide),
    by decide, by decide, by decide, by decide, by rfl⟩

end Assignment

section ParseClaims

variable {α : Type}

/-- The data members of a successful `parseSettings` are the ones handed to it. -/
theorem parseSettings_data (indet : Indeterminate α) (rh : RosParam α)
    (location gt_temperature gt_location init_location init_temperature
      collected_locations : MatrixXd α) (collected_temperatures : VectorXd α)
    (p : Parameters α)
    (h : parseSettings indet rh location gt_temperature gt_location init_location
      init_temperature collected_locations collected_temperatures = some p) :
    p.location_ = location
    ∧ p.init_sample_location_ = init_location
    ∧ p.init_sample_temperature_ = init_temperature
    ∧ p.collected_locations_ = collected_locations
    ∧ p.collected_temperatures_ = collected_temperatures
    ∧ p.ground_truth_temperature_ = gt_temperature
    ∧ p.ground_truth_location_ = gt_location := by
  unfold parseSettings at h
  simp only [Option.bind_eq_bind, Option.bind_eq_some, Option.pure_def, Option.some.injEq] at h
  obtain ⟨_, _, _, _, _, _, _, _, _, _, _, _, _, _, _, _, _, _, _, _, _, _, _, _, _, _, rfl⟩ := h
  exact ⟨rfl, rfl, rfl, rfl, rfl, rfl, rfl⟩

/-- What `ParseFromRosParam` leaves in the two logs whenever it returns `true`:
the location log is the initial temperature matrix, the value log is the single
column of the initial location matrix. -/
theorem ParseFromRosParam_logs (indet : Indeterminate α) (rh : RosParam α)
    (p : Parameters α) (h : ParseFromRosParam indet rh = .done (some p)) :
    p.collected_locations_ = p.init_sample_temperature_
    ∧ p.collected_temperatures_ = p.init_sample_location_.data.filterMap List.head?
    ∧ p.init_sample_location_.cols = 1 := by
  unfold ParseFromRosParam at h
  cases hd : rh.data_path with
  | none => rw [hd] at h; cases h
  | some l =>
    cases l with
    | nil => rw [hd] at h; cases h
    | cons data_path tl =>
      rw [hd] at h
      simp only at h
      cases hl : data_path.location_data with
      | none => rw [hl] at h; cases h
      | some location =>
        rw [hl] at h
        simp only at h
        cases hil : data_path.initial_location_data with
        | none => rw [hil] at h; cases h
        | some init_location =>
          rw [hil] at h
          simp only at h
          cases hit : data_path.initial_temperature_data with
          | none => rw [hit] at h; cases h
          | some init_temperature =>
            rw [hit] at h
            simp only at h
            by_cases hc : init_location.cols = 1
            · simp only [MatrixXd.toVectorXd, hc, if_true, Outcome.done.injEq] at h
              obtain ⟨_, h2, h3, h4, h5, _, _⟩ := parseSettings_data _ _ _ _ _ _ _ _ _ _ h
              rw [h4, h5, h2, h3]
              exact ⟨rfl, rfl, hc⟩
            · simp [MatrixXd.toVectorXd, hc] at h

/-- C11 (the code departs from the claim). `ParseFromRosParam` assigns the initial
temperatures to `collected_locations_` and the initial locations to
`collected_temperatures_`. Whenever it returns `true`, the location log is the
initial temperature matrix and the initial location matrix has one column, so with
a 2 × 2 location matrix and a 2 × 1 temperature matrix it does not return: the
assignment of the 2 × 2 matrix to the vector is undefined. And on the object that
`Init` leaves for one-column data the location log has the single column of the
temperatures, so the first valid measurement writes its column 1 out of range. -/
theorem ParseFromRosParam_swaps_logs (indet : Indeterminate α) (rh : RosParam α) :
    (ParseFromRosParam indet rh).image
        (Option.map (fun p =>
          (p.collected_locations_, p.collected_temperatures_, p.init_sample_location_.cols)))
      = (ParseFromRosParam indet rh).image
        (Option.map (fun p =>
          (p.init_sample_temperature_, p.init_sample_location_.data.filterMap List.head?, 1)))
    ∧ ParseFromRosParam Concrete.indeterminate Concrete.rosParamTwoColumns
        = .undefined .shape_mismatch
    ∧ (ParseFromRosParam Concrete.indeterminate Concrete.rosParam).image
        (Option.map (fun p =>
          (p.init_sample_location_, p.init_sample_temperature_, p.collected_locations_,
            p.collected_temperatures_)))
      = .done (some ((⟨1, [[0], [3]]⟩ : MatrixXd ℤ), (⟨1, [[20], [21]]⟩ : MatrixXd ℤ),
          (⟨1, [[20], [21]]⟩ : MatrixXd ℤ), [0, 3]))
    ∧ (Init Concrete.ext Concrete.indeterminate Concrete.rosParam).bind
        (fun o => match o with
          | some s => (CollectSampleCallback Concrete.ext s Concrete.validSample).image some
          | none => .done none)
      = .undefined .index_out_of_range := by
  refine ⟨?_, by rfl, by rfl, by rfl⟩
  cases h : ParseFromRosParam indet rh with
  | undefined w => rfl
  | done o =>
    cases o with
    | none => rfl
    | some p =>
      obtain ⟨h1, h2, h3⟩ := ParseFromRosParam_logs indet rh p h
      simp only [Outcome.image, Option.map_some']
      rw [h1, h2, h3]

end ParseClaims

section TrainClaims

variable {α GP V IS : Type}

/-- C12 (the code departs from the claim). Whenever `Init` returns `true` with
initial samples configured, `model_` has been trained on
(`init_sample_temperature_`, `init_sample_temperature_`): the second argument is
the temperatures again, not `init_sample_location_`. On the concrete parameters
(temperatures 20, 21 at the locations 0, 3) the one `Train` call of `model_` has
the arguments ((20, 21), (20, 21)), while the ground-truth model is trained on
(`ground_truth_temperature_`, `ground_truth_location_`) and `UpdateModel` trains
on (`collected_temperatures_`, `collected_locations_`). -/
theorem Init_trains_model_on_temperatures_twice (ext : Externals α GP V IS)
    (indet : Indeterminate α) (rh : RosParam α) (s : SamplingCore α GP V IS) :
    (Init ext indet rh).image (Option.map (fun t => t.model_))
      = (Init ext indet rh).image (Option.map (fun t =>
          if t.init_sample_temperature_.rows > 0 then
            ext.Train (ext.newModel t.num_gaussian_ t.gp_hyperparams_ t.max_iteration_ t.eps_)
              t.init_sample_temperature_ t.init_sample_temperature_
          else ext.newModel t.num_gaussian_ t.gp_hyperparams_ t.max_iteration_ t.eps_))
    ∧ (UpdateModel ext s).model_
        = ext.Train s.model_ (MatrixXd.ofVectorXd s.collected_temperatures_)
            s.collected_locations_
    ∧ (Init Concrete.ext Concrete.indeterminate Concrete.rosParamWithTruth).image
        (Option.map (fun t => (t.init_sample_temperature_, t.init_sample_location_,
          t.model_, t.gt_model_)))
      = .done (some ((⟨1, [[20], [21]]⟩ : MatrixXd ℤ), (⟨1, [[0], [3]]⟩ : MatrixXd ℤ),
          [((⟨1, [[20], [21]]⟩ : MatrixXd ℤ), (⟨1, [[20], [21]]⟩ : MatrixXd ℤ))],
          some [((⟨1, [[30], [31], [32]]⟩ : MatrixXd ℤ),
            (⟨2, [[0, 0], [1, 0], [2, 0]]⟩ : MatrixXd ℤ))])) := by
  refine ⟨?_, rfl, by rfl⟩
  unfold Init
  cases hparse : ParseFromRosParam indet rh with
  | undefined w => rfl
  | done o =>
    cases o with
    | none => rfl
    | some p =>
      cases hvis : InitializeVisualization p with
      | undefined w => simp [Outcome.bind_done, Outcome.bind_undefined, hvis, Outcome.image]
      | done nodes =>
        by_cases hgt : p.ground_truth_temperature_.rows > 0
        · cases hmodel : p.gt_gp_hyperparams_.isEmpty <;>
            simp [Outcome.bind_done, Outcome.bind_undefined, hvis, Outcome.image, hgt,
              hmodel, Outcome.pure_eq]
        · simp [Outcome.bind_done, Outcome.bind_undefined, hvis, Outcome.image, hgt,
            Outcome.pure_eq]

end TrainClaims

section RMSMismatch

variable {α GP V IS : Type}
variable [Zero α] [Add α] [Sub α] [Mul α] [Div α] [NatCast α]

end RMSMismatch

section RMSMismatchWitness

end RMSMismatchWitness

end core
end sampling
